import Mathlib

/-!
Verification development for the route-finding core of the `ultrameme`
repository (src/lib/routeFinder.ts together with the distance and places
helpers of src/lib/googleMaps.ts and the data model of src/types/index.ts).

The JavaScript numbers are modelled by real numbers; `Infinity` sentinels
(appearing in `loopnessPenalty` and `calculateSegmentSpacingVariance`) are
modelled by `⊤ : EReal`.  The external collaborators (the Places lookup,
the place-details call and the Directions oracle) are passed in as explicit
function arguments, and the `Math.random()` draws of the candidate route
generator are abstracted into a `RandSrc` record supplying one shuffle per
iteration and the two selection draws per construction step, so every
theorem quantifies over all possible randomness.
-/

open Real List

set_option maxHeartbeats 1000000

/-- A point of interest, `TacoBellLocation` of src/types/index.ts:
coordinates plus display address, stable external identifier and name. -/
structure TacoBellLocation where
  lat : ℝ
  lng : ℝ
  address : String
  placeId : String
  name : String

/-- Default stop used only to totalise partial list accesses
(`route[0]`, `route[route.length - 1]`) that the source performs on lists
that are provably nonempty at those program points. -/
def dummyStop : TacoBellLocation := ⟨0, 0, "", "", ""⟩

instance : Inhabited TacoBellLocation := ⟨dummyStop⟩

/-- `RouteFinderConfig` of src/types/index.ts. -/
structure RouteFinderConfig where
  minDistanceMeters : ℝ
  maxDistanceMeters : ℝ
  minTacoBells : Nat
  maxTacoBells : Nat
  searchRadiusMiles : ℝ
  maxApiCalls : Option Nat := none

/-- `RouteFinderResult` of src/types/index.ts: success flag with optional
route, total distance and error message. -/
structure RouteFinderResult where
  success : Bool
  route : Option (List TacoBellLocation) := none
  totalDistance : Option ℝ := none
  error : Option String := none

/-- Two-argument arctangent as used by `Math.atan2(y, x)` in
`haversineDistance`; the IEEE definition restricted to non-NaN inputs
(signed zeros collapse to the plain zero). -/
noncomputable def atan2 (y x : ℝ) : ℝ :=
  if 0 < x then Real.arctan (y / x)
  else if x < 0 ∧ 0 ≤ y then Real.arctan (y / x) + π
  else if x < 0 ∧ y < 0 then Real.arctan (y / x) - π
  else if x = 0 ∧ 0 < y then π / 2
  else if x = 0 ∧ y < 0 then -(π / 2)
  else 0

/-- `haversineDistance` of src/lib/googleMaps.ts: great-circle distance in
meters between two coordinates, Earth radius 6 371 000 m. -/
noncomputable def haversineDistance (lat1 lng1 lat2 lng2 : ℝ) : ℝ :=
  let R : ℝ := 6371000
  let dLat := (lat2 - lat1) * π / 180
  let dLng := (lng2 - lng1) * π / 180
  let a := Real.sin (dLat / 2) * Real.sin (dLat / 2) +
    Real.cos (lat1 * π / 180) * Real.cos (lat2 * π / 180) *
    Real.sin (dLng / 2) * Real.sin (dLng / 2)
  let c := 2 * atan2 (Real.sqrt a) (Real.sqrt (1 - a))
  R * c

/-- The haversine intermediate `a` is symmetric in the two coordinates. -/
theorem haversine_core_symm (lat1 lng1 lat2 lng2 : ℝ) :
    Real.sin ((lat2 - lat1) * π / 180 / 2) * Real.sin ((lat2 - lat1) * π / 180 / 2) +
      Real.cos (lat1 * π / 180) * Real.cos (lat2 * π / 180) *
      Real.sin ((lng2 - lng1) * π / 180 / 2) * Real.sin ((lng2 - lng1) * π / 180 / 2) =
    Real.sin ((lat1 - lat2) * π / 180 / 2) * Real.sin ((lat1 - lat2) * π / 180 / 2) +
      Real.cos (lat2 * π / 180) * Real.cos (lat1 * π / 180) *
      Real.sin ((lng1 - lng2) * π / 180 / 2) * Real.sin ((lng1 - lng2) * π / 180 / 2) := by
  have hlat : (lat1 - lat2) * π / 180 / 2 = -((lat2 - lat1) * π / 180 / 2) := by ring
  have hlng : (lng1 - lng2) * π / 180 / 2 = -((lng2 - lng1) * π / 180 / 2) := by ring
  rw [hlat, hlng]
  simp only [Real.sin_neg]
  ring

/-- C9: `haversineDistance` is symmetric in its two coordinate arguments,
vanishes on equal coordinates, and is the haversine formula with Earth
radius 6 371 000 m (the third conjunct restates the defining formula, making
the radius constant visible in the statement). -/
theorem haversineDistance_symm_self_zero (lat1 lng1 lat2 lng2 : ℝ) :
    haversineDistance lat1 lng1 lat2 lng2 = haversineDistance lat2 lng2 lat1 lng1 ∧
    haversineDistance lat1 lng1 lat1 lng1 = 0 ∧
    haversineDistance lat1 lng1 lat2 lng2 =
      6371000 * (2 * atan2
        (Real.sqrt (Real.sin ((lat2 - lat1) * π / 180 / 2) * Real.sin ((lat2 - lat1) * π / 180 / 2) +
          Real.cos (lat1 * π / 180) * Real.cos (lat2 * π / 180) *
          Real.sin ((lng2 - lng1) * π / 180 / 2) * Real.sin ((lng2 - lng1) * π / 180 / 2)))
        (Real.sqrt (1 - (Real.sin ((lat2 - lat1) * π / 180 / 2) * Real.sin ((lat2 - lat1) * π / 180 / 2) +
          Real.cos (lat1 * π / 180) * Real.cos (lat2 * π / 180) *
          Real.sin ((lng2 - lng1) * π / 180 / 2) * Real.sin ((lng2 - lng1) * π / 180 / 2))))) := by
  refine ⟨?_, ?_, rfl⟩
  · show 6371000 * (2 * atan2 _ _) = 6371000 * (2 * atan2 _ _)
    rw [haversine_core_symm lat1 lng1 lat2 lng2]
  · show 6371000 * (2 * atan2 _ _) = 0
    have hz : (lat1 - lat1) * π / 180 / 2 = 0 := by ring
    have hz' : (lng1 - lng1) * π / 180 / 2 = 0 := by ring
    rw [hz, hz', Real.sin_zero]
    have ha : (0 : ℝ) * 0 + Real.cos (lat1 * π / 180) * Real.cos (lat1 * π / 180) * 0 * 0 = 0 := by
      ring
    rw [ha, Real.sqrt_zero, sub_zero, Real.sqrt_one]
    have h1 : atan2 0 1 = 0 := by
      unfold atan2
      rw [if_pos one_pos]
      simp [Real.arctan_zero]
    rw [h1]
    ring

/-- Character-list prefix test, used to model JavaScript's
`String.prototype.includes` below. -/
def listPrefixOf : List Char → List Char → Bool
  | [], _ => true
  | _ :: _, [] => false
  | x :: xs, y :: ys => x = y && listPrefixOf xs ys

/-- Model of `hay.includes(pat)` of JavaScript: `pat` occurs as a contiguous
substring of `hay`. -/
def strIncludes (hay pat : String) : Bool :=
  (List.range (hay.data.length + 1)).any (fun i => listPrefixOf pat.data (hay.data.drop i))

/-- A nearby-search result as returned by `searchNearbyPlaces` of
src/lib/googleMaps.ts (the fields `findTacoBells` reads; `types` absent is
modelled by the empty list, and the geometry is modelled as always
present). -/
structure Place where
  place_id : String
  name : String
  formatted_address : Option String := none
  lat : ℝ
  lng : ℝ
  types : List String

/-- A place-details result as returned by `getPlaceDetails` of
src/lib/googleMaps.ts, with the extra fields the route finder's
address-extraction step reads. -/
structure PlaceDetails where
  place_id : String
  name : String
  formatted_address : String
  vicinity : Option String := none
  lat : ℝ
  lng : ℝ

/-- Model of `String.prototype.toLowerCase` of JavaScript: character-wise
lower-casing. -/
def jsToLower (s : String) : String := ⟨s.data.map Char.toLower⟩

/-- The brand/category filter of `findTacoBells` in src/lib/routeFinder.ts:
some category tag contains "restaurant" or "food", and the lower-cased name
contains "taco bell" or "tacobell". -/
def isTacoBellPlace (p : Place) : Bool :=
  (p.types.any fun t => strIncludes t "restaurant" || strIncludes t "food") &&
  (strIncludes (jsToLower p.name) "taco bell" || strIncludes (jsToLower p.name) "tacobell")

/-- One accepted entry of `findTacoBells`: on a successful details call the
stop is built from the details (with the `finalAddress` guard of the
source), and on a failed details call from the nearby-search result with an
empty address.  `extractAddress` stands for `extractAddressFromPlace`,
which is imported by src/lib/routeFinder.ts but whose definition is not
part of the sources, so it stays an abstract argument. -/
def tacoBellEntry (details : String → Except Unit PlaceDetails)
    (extractAddress : PlaceDetails → Option String) (p : Place) : TacoBellLocation :=
  match details p.place_id with
  | .ok pd =>
    let finalAddress :=
      match extractAddress pd with
      | some a => if a.trim ≠ "" ∧ a ≠ pd.name then a.trim else ""
      | none => ""
    ⟨pd.lat, pd.lng, finalAddress, pd.place_id, pd.name⟩
  | .error _ => ⟨p.lat, p.lng, "", p.place_id, p.name⟩

/-- `findTacoBells` of src/lib/routeFinder.ts (second route finder): keeps
the nearby-search results that pass the brand/category filter and converts
each to a `TacoBellLocation`, in input order.  Note that no deduplication
by `placeId` is performed. -/
def findTacoBells (places : List Place) (details : String → Except Unit PlaceDetails)
    (extractAddress : PlaceDetails → Option String) : List TacoBellLocation :=
  (places.filter isTacoBellPlace).map (tacoBellEntry details extractAddress)

/-- Consecutive-leg geodesic distances of a route (the loop bodies of
`routeDistance` and `calculateSegmentSpacingVariance` both iterate
`i = 0 .. length - 2` over the same expression). -/
noncomputable def segmentDistances (route : List TacoBellLocation) : List ℝ :=
  (route.zip route.tail).map fun pq => haversineDistance pq.1.lat pq.1.lng pq.2.lat pq.2.lng

/-- `routeDistance` of src/lib/routeFinder.ts: total haversine distance
along a route, 0 for fewer than two stops. -/
noncomputable def routeDistance (route : List TacoBellLocation) : ℝ :=
  if route.length < 2 then 0 else (segmentDistances route).sum

/-- `loopnessPenalty` of src/lib/routeFinder.ts: haversine distance between
the first and last stop, `Infinity` (modelled by `⊤`) for fewer than two
stops. -/
noncomputable def loopnessPenalty (route : List TacoBellLocation) : EReal :=
  if route.length < 2 then ⊤
  else ((haversineDistance (route.headD dummyStop).lat (route.headD dummyStop).lng
    (route.getLastD dummyStop).lat (route.getLastD dummyStop).lng : ℝ) : EReal)

/-- `calculateSegmentSpacingVariance` of src/lib/routeFinder.ts: one
thousand times the coefficient of variation (standard deviation over mean)
of the consecutive-leg distances; `Infinity` (modelled by `⊤`) for fewer
than two stops or a non-positive mean. -/
noncomputable def calculateSegmentSpacingVariance (route : List TacoBellLocation) : EReal :=
  if route.length < 2 then ⊤
  else
    let ds := segmentDistances route
    if ds.length = 0 then ⊤
    else
      let mean := ds.sum / (ds.length : ℝ)
      let variance := (ds.map fun d => (d - mean) ^ 2).sum / (ds.length : ℝ)
      let stdDev := Real.sqrt variance
      if 0 < mean then ((stdDev / mean * 1000 : ℝ) : EReal) else ⊤

/-- `scoreRoute` of src/lib/routeFinder.ts (second route finder): distance
deviation from the road-distance target plus weighted loop-closure and
spacing-variance penalties; lower is better.  JavaScript's division of the
possibly-infinite loop penalty by 1000 is modelled by multiplication with
`1/1000`, which agrees with it on all reachable values. -/
noncomputable def scoreRoute (route : List TacoBellLocation) (targetRoadKm : ℝ)
    (loopPenaltyWeight : ℝ) (spacingVarianceWeight : ℝ)
    (roadDistanceMultiplier : ℝ) : ℝ × EReal :=
  let haversineDist := routeDistance route
  let haversineKm := haversineDist / 1000
  let estimatedRoadKm := haversineKm * roadDistanceMultiplier
  let distanceDiff := |estimatedRoadKm - targetRoadKm|
  let loopPenalty : EReal := loopnessPenalty route * ((1 / 1000 : ℝ) : EReal)
  let spacingVariance := calculateSegmentSpacingVariance route
  let score : EReal := ((distanceDiff : ℝ) : EReal) +
    ((loopPenaltyWeight : ℝ) : EReal) * loopPenalty +
    ((spacingVarianceWeight : ℝ) : EReal) * spacingVariance
  (haversineDist, score)

/-- `RouteCandidate` of src/lib/routeFinder.ts (second route finder): a
closed loop of stops plus its haversine total distance and its score
(lower is better). -/
structure RouteCandidate where
  stops : List TacoBellLocation
  totalDistance : ℝ
  score : EReal

instance : Inhabited RouteCandidate := ⟨⟨[], 0, 0⟩⟩

/-- Abstraction of the `Math.random()` draws consumed by
`generateCandidateRoutes`: the shuffle produced by the random comparator of
iteration `i`, whether the step picking the stop number `n` of iteration
`i` takes the best-scored candidate (the `Math.random() < 0.7` draw), and
the raw draw for the pick among the top three otherwise.  Theorems
quantify over all values of this record, so they cover every possible
behaviour of the unseeded source randomness. -/
structure RandSrc where
  shuffle : Nat → List TacoBellLocation → List TacoBellLocation
  pickBest : Nat → Nat → Bool
  pickIdx : Nat → Nat → Nat

/-- One step of the greedy construction loop of `generateCandidateRoutes`:
from the stops of `shuffled` not already in `route`, the candidates paired
with their distance from the last stop and their balance score, sorted by
distance then by the 0.7/0.3 combined score, and one of them selected
(the best one when the `pickBest` draw or a singleton forces it, otherwise
the `pickIdx` draw among the top `min 3` candidates).  The source also
computes a `currentAvgSegmentM` value that it never reads again; it is
omitted here. -/
noncomputable def selectNext (targetKm : ℝ) (nStops : Nat)
    (shuffled : List TacoBellLocation) (pickBest : Nat → Bool) (pickIdx : Nat → Nat)
    (route : List TacoBellLocation) : Option TacoBellLocation :=
  let last := route.getLastD dummyStop
  let targetTotalHaversineKm := targetKm / 1.18 * 0.9
  let targetAvgSegmentKm := targetTotalHaversineKm / (nStops : ℝ)
  let targetAvgSegmentM := targetAvgSegmentKm * 1000
  let candidates := (shuffled.filter fun c => !(route.any fun tb => tb.placeId == c.placeId)).map
    fun c =>
      let distance := haversineDistance last.lat last.lng c.lat c.lng
      (c, distance, |distance - targetAvgSegmentM|)
  if candidates.isEmpty then none
  else
    let sorted1 := List.insertionSort (fun x y : TacoBellLocation × ℝ × ℝ => x.2.1 ≤ y.2.1)
      candidates
    let rescored := sorted1.map fun x =>
      (x.1, x.2.1, 0.7 * (x.2.1 / targetAvgSegmentM) + 0.3 * (x.2.2 / targetAvgSegmentM))
    let sorted2 := List.insertionSort (fun x y : TacoBellLocation × ℝ × ℝ => x.2.2 ≤ y.2.2)
      rescored
    if pickBest route.length ∨ sorted2.length = 1 then
      some (sorted2.headD (dummyStop, 0, 0)).1
    else
      some (sorted2.getD (pickIdx route.length % min 3 sorted2.length) (dummyStop, 0, 0)).1

/-- The `while (route.length < nStops)` construction loop of
`generateCandidateRoutes`.  The loop adds one stop per pass, so `nStops`
passes of fuel make the recursion total without changing the computed
route. -/
noncomputable def buildLoop (targetKm : ℝ) (nStops : Nat)
    (shuffled : List TacoBellLocation) (pickBest : Nat → Bool) (pickIdx : Nat → Nat) :
    Nat → List TacoBellLocation → List TacoBellLocation
  | 0, route => route
  | fuel + 1, route =>
    if route.length < nStops then
      match selectNext targetKm nStops shuffled pickBest pickIdx route with
      | none => route
      | some tb => buildLoop targetKm nStops shuffled pickBest pickIdx fuel (route ++ [tb])
    else route

/-- The route built by iteration `i` of `generateCandidateRoutes`,
including the closing `route.push(start)` applied when the route has more
than one stop and does not already end at the start. -/
noncomputable def closedRoute (start : TacoBellLocation) (nearby : List TacoBellLocation)
    (targetKm : ℝ) (nStops : Nat) (rand : RandSrc) (i : Nat) : List TacoBellLocation :=
  let shuffled := rand.shuffle i nearby
  let route := buildLoop targetKm nStops shuffled (rand.pickBest i) (rand.pickIdx i)
    nStops [start]
  if 1 < route.length ∧ (route.getLastD dummyStop).placeId ≠ start.placeId then
    route ++ [start]
  else route

/-- The duplicate-route signature of `generateCandidateRoutes`: interior
place identifiers, sorted, joined with commas. -/
def routeSignature (route : List TacoBellLocation) : String :=
  String.intercalate ","
    (List.insertionSort (fun a b : String => a ≤ b)
      ((route.drop 1).dropLast.map fun tb => tb.placeId))

/-- Mutable state of the iteration loop of `generateCandidateRoutes`: the
signatures seen so far and the accepted candidates in production order. -/
structure GenState where
  seenRoutes : List String
  routes : List RouteCandidate

/-- One iteration of the `for (let iter = 0; ...)` loop of
`generateCandidateRoutes`: build a closed route, skip it if its signature
was already seen, record the signature, skip the route (signature kept) if
its estimated road distance exceeds the target by more than 10%, and
otherwise score it with weights 0.5 and 0.2 and append it. -/
noncomputable def genIter (start : TacoBellLocation) (nearby : List TacoBellLocation)
    (targetKm : ℝ) (nStops : Nat) (rand : RandSrc) (s : GenState) (i : Nat) : GenState :=
  let route := closedRoute start nearby targetKm nStops rand i
  let signature := routeSignature route
  if signature ∈ s.seenRoutes then s
  else
    let seen' := signature :: s.seenRoutes
    let haversineDist := routeDistance route
    let estimatedRoadKm := haversineDist / 1000 * 1.18
    if estimatedRoadKm > targetKm * 1.1 then ⟨seen', s.routes⟩
    else
      let sc := scoreRoute route targetKm 0.5 0.2 1.18
      ⟨seen', s.routes ++ [⟨route, sc.1, sc.2⟩]⟩

/-- The 15-mile pool filter at the top of `generateCandidateRoutes`: stops
within 24 140 m haversine distance of the start, excluding the start
itself. -/
noncomputable def nearbyOf (start : TacoBellLocation)
    (allTacoBells : List TacoBellLocation) : List TacoBellLocation :=
  allTacoBells.filter fun tb =>
    decide (haversineDistance start.lat start.lng tb.lat tb.lng ≤ 24140) &&
      (tb.placeId != start.placeId)

/-- `generateCandidateRoutes` of src/lib/routeFinder.ts: filter the pool to
the 15-mile neighbourhood, fail when it cannot even hold `nStops - 1`
interior stops, run the randomized greedy construction `iterations` times
and return the accepted candidates sorted by score, best (lowest) first. -/
noncomputable def generateCandidateRoutes (start : TacoBellLocation)
    (allTacoBells : List TacoBellLocation) (targetKm : ℝ) (nStops : Nat)
    (iterations : Nat) (rand : RandSrc) : Except String (List RouteCandidate) :=
  let nearby := nearbyOf start allTacoBells
  if nearby.length < nStops - 1 then
    .error ("Not enough Taco Bells nearby! Found " ++ toString nearby.length ++
      ", need at least " ++ toString (nStops - 1))
  else
    let final := (List.range iterations).foldl (genIter start nearby targetKm nStops rand)
      ⟨[], []⟩
    .ok (List.insertionSort (fun a b : RouteCandidate => a.score ≤ b.score) final.routes)

/-- A Directions response as consumed by the verification loop of
`findOptimalRoute`: each route is its list of leg distances in meters
(`directions.routes[i].legs[j].distance.value`). -/
structure DirectionsResponse where
  routes : List (List ℝ)

/-- The distance oracle `calculateRoute` of src/lib/googleMaps.ts as seen
from the core: origin, destination and waypoints in, either a response or
a thrown transport/status error out. -/
def Oracle : Type := TacoBellLocation → TacoBellLocation → List TacoBellLocation →
  Except Unit DirectionsResponse

/-- The best-verified-route update of the verification loop of
`findOptimalRoute` (the `bestRoute`/`bestActualDistance` pair is modelled
as one optional pair; the source's `Infinity` initialiser and
`bestRoute === null` tests collapse to the `none` case).  A candidate with
verified distance `d` replaces the current best exactly when `d` is within
the configured range and either no best exists yet or `d` is strictly
smaller than the best distance and at least as close to `targetKm`. -/
noncomputable def updateBest (cfg : RouteFinderConfig) (targetKm : ℝ)
    (best : Option (RouteCandidate × ℝ)) (c : RouteCandidate) (d : ℝ) :
    Option (RouteCandidate × ℝ) :=
  if cfg.minDistanceMeters ≤ d ∧ d ≤ cfg.maxDistanceMeters then
    match best with
    | none => some (c, d)
    | some (cb, db) =>
      if d < db then
        if |d / 1000 - targetKm| ≤ |db / 1000 - targetKm| then some (c, d) else some (cb, db)
      else some (cb, db)
  else best

/-- The effective oracle-call ceiling: `config.maxApiCalls || 50` of the
source.  JavaScript's `||` treats the number 0 as falsy, so a configured
ceiling of 0 behaves like an unset one. -/
def effectiveMaxApiCalls (cfg : RouteFinderConfig) : Nat :=
  match cfg.maxApiCalls with
  | some n => if n = 0 then 50 else n
  | none => 50

/-- State of the verification loop of `findOptimalRoute`.  `apiCallCount`
is the source's counter, incremented only after a non-throwing oracle
call; `oracleCalls` additionally counts the invocations that throw, so it
is the true number of oracle calls made. -/
structure VerifyState where
  apiCallCount : Nat
  oracleCalls : Nat
  best : Option (RouteCandidate × ℝ)

/-- One pass of the verification loop of `findOptimalRoute`: stop when the
call counter has reached the ceiling (the source `break`s, which the fold
reproduces because the counter never decreases, so the guard stays true
for every later candidate); otherwise invoke the oracle on the candidate's
start, end and interior waypoints; a thrown error is caught and leaves the
counter unchanged; an empty route list leaves the best unchanged;
otherwise the summed legs of the first route feed the best-update rule. -/
noncomputable def verifyStep (cfg : RouteFinderConfig) (targetKm : ℝ) (oracle : Oracle)
    (s : VerifyState) (c : RouteCandidate) : VerifyState :=
  if s.apiCallCount ≥ effectiveMaxApiCalls cfg then s
  else
    match oracle (c.stops.headD dummyStop) (c.stops.getLastD dummyStop)
      ((c.stops.drop 1).dropLast) with
    | .error _ => ⟨s.apiCallCount, s.oracleCalls + 1, s.best⟩
    | .ok dirs =>
      match dirs.routes.head? with
      | none => ⟨s.apiCallCount + 1, s.oracleCalls + 1, s.best⟩
      | some legs =>
        ⟨s.apiCallCount + 1, s.oracleCalls + 1, updateBest cfg targetKm s.best c legs.sum⟩

/-- The final state of the verification loop over a candidate list. -/
noncomputable def verifyFinalState (cfg : RouteFinderConfig) (targetKm : ℝ) (oracle : Oracle)
    (top : List RouteCandidate) : VerifyState :=
  top.foldl (verifyStep cfg targetKm oracle) ⟨0, 0, none⟩

/-- The per-stop-count generation step of `findOptimalRoute`: the
exception thrown by `generateCandidateRoutes` for a too-small pool is
caught and logged, contributing no candidates. -/
noncomputable def batchRoutes (start : TacoBellLocation) (pool : List TacoBellLocation)
    (targetKm : ℝ) (rand : RandSrc) (nStops : Nat) : List RouteCandidate :=
  match generateCandidateRoutes start pool targetKm nStops 200 rand with
  | .ok routes => routes
  | .error _ => []

/-- The merged candidate list of `findOptimalRoute`: the per-stop-count
batches for every stop count from `minTacoBells` to `maxTacoBells`,
concatenated in increasing stop-count order.  No re-sort is applied to the
concatenation. -/
noncomputable def mergedCandidates (start : TacoBellLocation) (cfg : RouteFinderConfig)
    (pool : List TacoBellLocation) (targetKm : ℝ) (rands : Nat → RandSrc) :
    List RouteCandidate :=
  ((List.range' cfg.minTacoBells (cfg.maxTacoBells + 1 - cfg.minTacoBells)).map
    fun n => batchRoutes start pool targetKm (rands n) n).flatten

/-- The candidates handed to oracle verification:
`candidateRoutes.slice(0, 5)` of the source. -/
noncomputable def topCandidatesOf (start : TacoBellLocation) (cfg : RouteFinderConfig)
    (pool : List TacoBellLocation) (targetKm : ℝ) (rands : Nat → RandSrc) :
    List RouteCandidate :=
  (mergedCandidates start cfg pool targetKm rands).take 5

/-- The pool handed to the generator: the found stops, with the start stop
appended when its identifier is not already present. -/
def poolWithStart (start : TacoBellLocation) (allTacoBells : List TacoBellLocation) :
    List TacoBellLocation :=
  if allTacoBells.any fun tb => tb.placeId == start.placeId then allTacoBells
  else allTacoBells ++ [start]

/-- The error message thrown (and returned as the failure message) when
fewer stops than `minTacoBells` are found. -/
def insufficientCandidatesError (found need : Nat) : String :=
  "Not enough Taco Bells found. Found " ++ toString found ++ ", need at least " ++ toString need

/-- `findOptimalRoute` of src/lib/routeFinder.ts (second route finder),
with the external collaborators explicit: `places` is what
`searchNearbyPlaces` returned, `details` is `getPlaceDetails`,
`extractAddress` is `extractAddressFromPlace`, `rands` supplies the
randomness of the per-stop-count generator calls and `oracle` is
`calculateRoute`.  Thrown errors (too few stops, no candidates) are caught
by the surrounding try/catch and returned as a failed result carrying the
message. -/
noncomputable def findOptimalRoute (start : TacoBellLocation) (cfg : RouteFinderConfig)
    (places : List Place) (details : String → Except Unit PlaceDetails)
    (extractAddress : PlaceDetails → Option String) (rands : Nat → RandSrc)
    (oracle : Oracle) : RouteFinderResult :=
  let targetKm : ℝ := 50
  let allTacoBells := findTacoBells places details extractAddress
  if allTacoBells.length < cfg.minTacoBells then
    ⟨false, none, none, some (insufficientCandidatesError allTacoBells.length cfg.minTacoBells)⟩
  else
    let pool := poolWithStart start allTacoBells
    let top := topCandidatesOf start cfg pool targetKm rands
    if top.isEmpty then ⟨false, none, none, some "No candidate routes generated"⟩
    else
      let final := verifyFinalState cfg targetKm oracle top
      match final.best with
      | some (c, d) => ⟨true, some c.stops.dropLast, some d, none⟩
      | none =>
        let bestEstimate := top.headD default
        ⟨true, some bestEstimate.stops.dropLast, some bestEstimate.totalDistance, none⟩

/-- The number of oracle invocations (including throwing ones) a
`findOptimalRoute` invocation performs; the oracle is reached only from
the verification loop. -/
noncomputable def oracleCallsUsed (start : TacoBellLocation) (cfg : RouteFinderConfig)
    (places : List Place) (details : String → Except Unit PlaceDetails)
    (extractAddress : PlaceDetails → Option String) (rands : Nat → RandSrc)
    (oracle : Oracle) : Nat :=
  let allTacoBells := findTacoBells places details extractAddress
  if allTacoBells.length < cfg.minTacoBells then 0
  else
    (verifyFinalState cfg 50 oracle
      (topCandidatesOf start cfg (poolWithStart start allTacoBells) 50 rands)).oracleCalls


open scoped Classical

/-- C5 (amended): the best-update rule of the verification loop.  A
candidate with in-range verified distance `d` becomes the best verified
candidate exactly when no best exists yet, or when `d` is strictly smaller
than the current best verified distance and at least as close to the
target; in every other case the current best is unchanged. -/
theorem updateBest_characterization (cfg : RouteFinderConfig) (targetKm : ℝ)
    (best : Option (RouteCandidate × ℝ)) (c : RouteCandidate) (d : ℝ) :
    updateBest cfg targetKm best c d =
      if (cfg.minDistanceMeters ≤ d ∧ d ≤ cfg.maxDistanceMeters) ∧
          (best = none ∨ ∃ cb db, best = some (cb, db) ∧ d < db ∧
            |d / 1000 - targetKm| ≤ |db / 1000 - targetKm|)
        then some (c, d) else best := by
  unfold updateBest
  by_cases hr : cfg.minDistanceMeters ≤ d ∧ d ≤ cfg.maxDistanceMeters
  · rw [if_pos hr]
    cases best with
    | none => rw [if_pos ⟨hr, Or.inl rfl⟩]
    | some p =>
      obtain ⟨cb, db⟩ := p
      change (if d < db then
        if |d / 1000 - targetKm| ≤ |db / 1000 - targetKm| then some (c, d) else some (cb, db)
        else some (cb, db)) = _
      by_cases hlt : d < db
      · by_cases hdiff : |d / 1000 - targetKm| ≤ |db / 1000 - targetKm|
        · rw [if_pos hlt, if_pos hdiff, if_pos ⟨hr, Or.inr ⟨cb, db, rfl, hlt, hdiff⟩⟩]
        · rw [if_pos hlt, if_neg hdiff, if_neg]
          rintro ⟨-, h | ⟨cb', db', heq, -, hdiff'⟩⟩
          · exact Option.noConfusion h
          · obtain ⟨rfl, rfl⟩ : cb' = cb ∧ db' = db := by
              have h2 := (Prod.mk.injEq _ _ _ _).mp (Option.some.inj heq)
              exact ⟨h2.1.symm, h2.2.symm⟩
            exact hdiff hdiff'
      · rw [if_neg hlt, if_neg]
        rintro ⟨-, h | ⟨cb', db', heq, hlt', -⟩⟩
        · exact Option.noConfusion h
        · obtain ⟨rfl, rfl⟩ : cb' = cb ∧ db' = db := by
            have h2 := (Prod.mk.injEq _ _ _ _).mp (Option.some.inj heq)
            exact ⟨h2.1.symm, h2.2.symm⟩
          exact hlt hlt'
  · rw [if_neg hr, if_neg]
    rintro ⟨hr', -⟩
    exact hr hr'

/-- C5 (counterexample): with range [48000, 55000] and target 50 km, a
best verified at 49 000 m and a new candidate verified at 49 500 m — in
range and strictly closer to the target — the source keeps the old best
because 49 500 is not strictly smaller than 49 000, contradicting the
claim that closeness to the target alone decides. -/
theorem updateBest_claim_counterexample :
    updateBest ⟨48000, 55000, 3, 4, 15, none⟩ 50 (some (⟨[], 0, 0⟩, 49000)) ⟨[], 1, 0⟩ 49500 =
      some (⟨[], 0, 0⟩, 49000) ∧
    ((48000 : ℝ) ≤ 49500 ∧ (49500 : ℝ) ≤ 55000) ∧
    |(49500 : ℝ) / 1000 - 50| < |(49000 : ℝ) / 1000 - 50| ∧
    (⟨[], 1, 0⟩ : RouteCandidate) ≠ ⟨[], 0, 0⟩ := by
  refine ⟨?_, ⟨by norm_num, by norm_num⟩, ?_, ?_⟩
  · unfold updateBest
    rw [if_pos ⟨by norm_num, by norm_num⟩]
    change (if (49500 : ℝ) < 49000 then _ else _) = _
    rw [if_neg (by norm_num)]
  · have e1 : |(49500 : ℝ) / 1000 - 50| = 1 / 2 := by
      rw [show (49500 : ℝ) / 1000 - 50 = -(1 / 2) by norm_num, abs_neg, abs_of_nonneg]
      norm_num
    have e2 : |(49000 : ℝ) / 1000 - 50| = 1 := by
      rw [show (49000 : ℝ) / 1000 - 50 = -1 by norm_num, abs_neg, abs_of_nonneg]
      norm_num
    rw [e1, e2]
    norm_num
  · intro h
    have h2 := congrArg RouteCandidate.totalDistance h
    norm_num at h2

/-- Modelled from the spec: the coefficient of variation — standard
deviation divided by mean — of the consecutive-leg geodesic distances of a
loop ("Leg-spacing evenness: coefficient of variation (standard deviation
÷ mean) of consecutive-leg geodesic distances"). -/
noncomputable def legSpacingCV (route : List TacoBellLocation) : ℝ :=
  let ds := segmentDistances route
  let mean := ds.sum / (ds.length : ℝ)
  Real.sqrt ((ds.map fun d => (d - mean) ^ 2).sum / (ds.length : ℝ)) / mean

/-- The number of consecutive legs of a route. -/
theorem segmentDistances_length (route : List TacoBellLocation) :
    (segmentDistances route).length = min route.length (route.length - 1) := by
  simp [segmentDistances, List.length_zip, List.length_tail]

/-- C7 (amended): for every loop with at least two stops and positive mean
leg length, the spacing sub-score used by the Route Scorer is one thousand
times the coefficient of variation of the consecutive-leg distances (the
source multiplies the CV by 1000 "to convert to km scale"), not the CV
itself. -/
theorem spacingVariance_eq_1000_CV (route : List TacoBellLocation)
    (h2 : 2 ≤ route.length)
    (hm : 0 < (segmentDistances route).sum / ((segmentDistances route).length : ℝ)) :
    calculateSegmentSpacingVariance route = ((legSpacingCV route * 1000 : ℝ) : EReal) := by
  unfold calculateSegmentSpacingVariance legSpacingCV
  rw [if_neg (by omega)]
  have hlen : ¬ (segmentDistances route).length = 0 := by
    rw [segmentDistances_length]
    omega
  rw [if_neg hlen, if_pos hm]

/-- C8 (amended): `findTacoBells` performs no deduplication — its output
identifiers are exactly the identifiers of the input places passing the
brand/category filter, in order and with any duplicates preserved
(assuming the details call echoes the queried identifier, as the Places
contract guarantees). -/
theorem findTacoBells_ids (places : List Place)
    (details : String → Except Unit PlaceDetails)
    (extractAddress : PlaceDetails → Option String)
    (hid : ∀ pid pd, details pid = .ok pd → pd.place_id = pid) :
    (findTacoBells places details extractAddress).map (fun tb => tb.placeId) =
      (places.filter isTacoBellPlace).map (fun p => p.place_id) := by
  unfold findTacoBells
  rw [List.map_map]
  apply List.map_congr_left
  intro p _
  show (tacoBellEntry details extractAddress p).placeId = p.place_id
  unfold tacoBellEntry
  cases hd : details p.place_id with
  | ok pd => simpa using hid p.place_id pd hd
  | error e => rfl

/-- C8 (witness for the amended theorem): with a failing details call the
hypothesis holds vacuously and the identifier lists coincide on a concrete
input. -/
theorem findTacoBells_ids_witness :
    (∀ pid pd, (fun _ : String => (Except.error () : Except Unit PlaceDetails)) pid = .ok pd →
      pd.place_id = pid) ∧
    (findTacoBells [⟨"x", "Taco Bell", none, 0, 0, ["restaurant"]⟩]
        (fun _ => .error ()) (fun _ => none)).map (fun tb => tb.placeId) =
      (([⟨"x", "Taco Bell", none, 0, 0, ["restaurant"]⟩] : List Place).filter
        isTacoBellPlace).map (fun p => p.place_id) := by
  constructor
  · intro pid pd h
    exact Except.noConfusion h
  · exact findTacoBells_ids _ _ _ (fun pid pd h => Except.noConfusion h)

/-- C8 (counterexample): the same place passing the filter twice yields two
output entries with the same external identifier — the output is not
deduplicated by identifier. -/
theorem findTacoBells_dedup_counterexample :
    (findTacoBells [⟨"dup", "Taco Bell", none, 0, 0, ["restaurant"]⟩,
        ⟨"dup", "Taco Bell", none, 0, 0, ["restaurant"]⟩]
      (fun _ => .error ()) (fun _ => none)).map (fun tb => tb.placeId) = ["dup", "dup"] ∧
    ¬ ((findTacoBells [⟨"dup", "Taco Bell", none, 0, 0, ["restaurant"]⟩,
        ⟨"dup", "Taco Bell", none, 0, 0, ["restaurant"]⟩]
      (fun _ => .error ()) (fun _ => none)).map (fun tb => tb.placeId)).Nodup := by
  have e : (findTacoBells [⟨"dup", "Taco Bell", none, 0, 0, ["restaurant"]⟩,
        ⟨"dup", "Taco Bell", none, 0, 0, ["restaurant"]⟩]
      (fun _ => .error ()) (fun _ => none)).map (fun tb => tb.placeId) = ["dup", "dup"] := by
    rfl
  refine ⟨e, ?_⟩
  rw [e]
  decide

/-- C2: when the filtered nearby-stop list holds fewer than
`config.minTacoBells` stops, `findOptimalRoute` fails with the
insufficient-candidates message and returns neither route nor distance.
The error kind is realised in the source as this distinguished message
string, thrown and caught by the surrounding try/catch. -/
theorem findOptimalRoute_insufficient (start : TacoBellLocation) (cfg : RouteFinderConfig)
    (places : List Place) (details : String → Except Unit PlaceDetails)
    (extractAddress : PlaceDetails → Option String) (rands : Nat → RandSrc) (oracle : Oracle)
    (h : (findTacoBells places details extractAddress).length < cfg.minTacoBells) :
    findOptimalRoute start cfg places details extractAddress rands oracle =
      ⟨false, none, none, some (insufficientCandidatesError
        (findTacoBells places details extractAddress).length cfg.minTacoBells)⟩ := by
  unfold findOptimalRoute
  rw [if_pos h]

/-- C2 (witness): an empty nearby-search result against a minimum of three
stops yields the failed result with the insufficient-candidates message. -/
theorem findOptimalRoute_insufficient_witness :
    (findTacoBells [] (fun _ => .error ()) (fun _ => none)).length < 3 ∧
    findOptimalRoute dummyStop ⟨48000, 55000, 3, 4, 15, none⟩ []
        (fun _ => .error ()) (fun _ => none)
        (fun _ => ⟨fun _ l => l, fun _ _ => true, fun _ _ => 0⟩) (fun _ _ _ => .error ()) =
      ⟨false, none, none, some (insufficientCandidatesError 0 3)⟩ := by
  refine ⟨by decide, ?_⟩
  exact findOptimalRoute_insufficient dummyStop ⟨48000, 55000, 3, 4, 15, none⟩ []
    (fun _ => .error ()) (fun _ => none)
    (fun _ => ⟨fun _ l => l, fun _ _ => true, fun _ _ => 0⟩) (fun _ _ _ => .error ())
    (by decide)

/-- Unfolding rule for a verification pass once the ceiling is reached:
the loop breaks, leaving the state unchanged. -/
theorem verifyStep_guard (cfg : RouteFinderConfig) (targetKm : ℝ) (oracle : Oracle)
    (s : VerifyState) (c : RouteCandidate)
    (hg : s.apiCallCount ≥ effectiveMaxApiCalls cfg) :
    verifyStep cfg targetKm oracle s c = s := by
  unfold verifyStep
  rw [if_pos hg]

/-- Unfolding rule for a verification pass whose oracle call throws: the
error is caught, the call counter is not incremented, the invocation
counter is. -/
theorem verifyStep_error (cfg : RouteFinderConfig) (targetKm : ℝ) (oracle : Oracle)
    (s : VerifyState) (c : RouteCandidate) (e : Unit)
    (hg : ¬ s.apiCallCount ≥ effectiveMaxApiCalls cfg)
    (ho : oracle (c.stops.headD dummyStop) (c.stops.getLastD dummyStop)
      ((c.stops.drop 1).dropLast) = .error e) :
    verifyStep cfg targetKm oracle s c = ⟨s.apiCallCount, s.oracleCalls + 1, s.best⟩ := by
  unfold verifyStep
  rw [if_neg hg, ho]

/-- Unfolding rule for a verification pass whose oracle call returns. -/
theorem verifyStep_ok (cfg : RouteFinderConfig) (targetKm : ℝ) (oracle : Oracle)
    (s : VerifyState) (c : RouteCandidate) (dirs : DirectionsResponse)
    (hg : ¬ s.apiCallCount ≥ effectiveMaxApiCalls cfg)
    (ho : oracle (c.stops.headD dummyStop) (c.stops.getLastD dummyStop)
      ((c.stops.drop 1).dropLast) = .ok dirs) :
    verifyStep cfg targetKm oracle s c =
      match dirs.routes.head? with
      | none => ⟨s.apiCallCount + 1, s.oracleCalls + 1, s.best⟩
      | some legs =>
        ⟨s.apiCallCount + 1, s.oracleCalls + 1, updateBest cfg targetKm s.best c legs.sum⟩ := by
  unfold verifyStep
  rw [if_neg hg, ho]

/-- The verification step keeps the counted calls below the ceiling and
makes at most one oracle invocation. -/
theorem verifyStep_bounds (cfg : RouteFinderConfig) (targetKm : ℝ) (oracle : Oracle)
    (s : VerifyState) (c : RouteCandidate)
    (h : s.apiCallCount ≤ effectiveMaxApiCalls cfg) :
    (verifyStep cfg targetKm oracle s c).apiCallCount ≤ effectiveMaxApiCalls cfg ∧
    (verifyStep cfg targetKm oracle s c).oracleCalls ≤ s.oracleCalls + 1 := by
  by_cases hg : s.apiCallCount ≥ effectiveMaxApiCalls cfg
  · rw [verifyStep_guard cfg targetKm oracle s c hg]
    exact ⟨h, Nat.le_succ _⟩
  · have hlt : s.apiCallCount < effectiveMaxApiCalls cfg := Nat.lt_of_not_le hg
    cases ho : oracle (c.stops.headD dummyStop) (c.stops.getLastD dummyStop)
      ((c.stops.drop 1).dropLast) with
    | error e =>
      rw [verifyStep_error cfg targetKm oracle s c e hg ho]
      exact ⟨h, le_refl _⟩
    | ok dirs =>
      rw [verifyStep_ok cfg targetKm oracle s c dirs hg ho]
      cases dirs.routes.head? with
      | none => exact ⟨hlt, le_refl _⟩
      | some legs => exact ⟨hlt, le_refl _⟩

/-- The verification fold keeps the counted calls below the ceiling and
makes at most one oracle invocation per candidate. -/
theorem verifyFold_bounds (cfg : RouteFinderConfig) (targetKm : ℝ) (oracle : Oracle) :
    ∀ (l : List RouteCandidate) (s : VerifyState),
    s.apiCallCount ≤ effectiveMaxApiCalls cfg →
    (l.foldl (verifyStep cfg targetKm oracle) s).apiCallCount ≤ effectiveMaxApiCalls cfg ∧
    (l.foldl (verifyStep cfg targetKm oracle) s).oracleCalls ≤ s.oracleCalls + l.length := by
  intro l
  induction l with
  | nil =>
    intro s h
    exact ⟨h, by simp⟩
  | cons c cs ih =>
    intro s h
    have hstep := verifyStep_bounds cfg targetKm oracle s c h
    have hrec := ih (verifyStep cfg targetKm oracle s c) hstep.1
    refine ⟨hrec.1, ?_⟩
    calc (List.foldl (verifyStep cfg targetKm oracle) (verifyStep cfg targetKm oracle s c)
          cs).oracleCalls
        ≤ (verifyStep cfg targetKm oracle s c).oracleCalls + cs.length := hrec.2
      _ ≤ s.oracleCalls + 1 + cs.length := Nat.add_le_add_right hstep.2 _
      _ = s.oracleCalls + (c :: cs).length := by
          simp [List.length_cons]
          omega

/-- C3 (amended): the source's call counter (which counts only
non-throwing oracle calls) never exceeds the effective ceiling —
`maxApiCalls` when set to a nonzero value, 50 otherwise, since
JavaScript's `||` treats 0 as unset — and the total number of oracle
invocations, throwing ones included, never exceeds the number of verified
candidates, which is capped at five.  Failed invocations do not consume
the budget, so the invocation count is not bounded by the ceiling
itself. -/
theorem verification_call_bounds :
    (∀ (cfg : RouteFinderConfig) (targetKm : ℝ) (oracle : Oracle)
      (top : List RouteCandidate),
      (verifyFinalState cfg targetKm oracle top).apiCallCount ≤ effectiveMaxApiCalls cfg ∧
      (verifyFinalState cfg targetKm oracle top).oracleCalls ≤ top.length) ∧
    (∀ (start : TacoBellLocation) (cfg : RouteFinderConfig) (pool : List TacoBellLocation)
      (targetKm : ℝ) (rands : Nat → RandSrc),
      (topCandidatesOf start cfg pool targetKm rands).length ≤ 5) := by
  constructor
  · intro cfg targetKm oracle top
    have h := verifyFold_bounds cfg targetKm oracle top ⟨0, 0, none⟩ (Nat.zero_le _)
    exact ⟨h.1, by simpa using h.2⟩
  · intro start cfg pool targetKm rands
    simp [topCandidatesOf, List.length_take]

/-- C6 (amended): each per-stop-count batch returned by the generator is
sorted by score (best first), and the candidates handed to verification
are the first five of the plain concatenation of those batches in
increasing stop-count order — the orchestrator applies no global re-sort
to the merged list. -/
theorem merged_candidates_structure :
    (∀ (start : TacoBellLocation) (pool : List TacoBellLocation) (targetKm : ℝ)
      (nStops iterations : Nat) (rand : RandSrc) (routes : List RouteCandidate),
      generateCandidateRoutes start pool targetKm nStops iterations rand = .ok routes →
      List.Sorted (fun a b : RouteCandidate => a.score ≤ b.score) routes) ∧
    (∀ (start : TacoBellLocation) (cfg : RouteFinderConfig) (pool : List TacoBellLocation)
      (targetKm : ℝ) (rands : Nat → RandSrc),
      topCandidatesOf start cfg pool targetKm rands =
        (((List.range' cfg.minTacoBells (cfg.maxTacoBells + 1 - cfg.minTacoBells)).map
          fun n => batchRoutes start pool targetKm (rands n) n).flatten).take 5) := by
  constructor
  · intro start pool targetKm nStops iterations rand routes hok
    unfold generateCandidateRoutes at hok
    by_cases hg : (nearbyOf start pool).length < nStops - 1
    · rw [if_pos hg] at hok
      exact Except.noConfusion hok
    · rw [if_neg hg] at hok
      have hr := Except.ok.inj hok
      haveI ht : IsTotal RouteCandidate fun a b : RouteCandidate => a.score ≤ b.score :=
        ⟨fun a b => le_total a.score b.score⟩
      haveI htr : IsTrans RouteCandidate fun a b : RouteCandidate => a.score ≤ b.score :=
        ⟨fun _ _ _ hab hbc => le_trans hab hbc⟩
      rw [← hr]
      exact List.sorted_insertionSort _ _
  · intro start cfg pool targetKm rands
    rfl

/-- Unfolding rule for `haversineDistance` with the let-bindings
flattened. -/
theorem haversineDistance_eq (lat1 lng1 lat2 lng2 : ℝ) :
    haversineDistance lat1 lng1 lat2 lng2 =
      6371000 * (2 * atan2
        (Real.sqrt (Real.sin ((lat2 - lat1) * π / 180 / 2) * Real.sin ((lat2 - lat1) * π / 180 / 2) +
          Real.cos (lat1 * π / 180) * Real.cos (lat2 * π / 180) *
          Real.sin ((lng2 - lng1) * π / 180 / 2) * Real.sin ((lng2 - lng1) * π / 180 / 2)))
        (Real.sqrt (1 - (Real.sin ((lat2 - lat1) * π / 180 / 2) * Real.sin ((lat2 - lat1) * π / 180 / 2) +
          Real.cos (lat1 * π / 180) * Real.cos (lat2 * π / 180) *
          Real.sin ((lng2 - lng1) * π / 180 / 2) * Real.sin ((lng2 - lng1) * π / 180 / 2))))) :=
  rfl

/-- The haversine distance of a point to itself vanishes (helper shared by
the concrete evaluations). -/
theorem haversine_self (lat lng : ℝ) : haversineDistance lat lng lat lng = 0 := by
  rw [haversineDistance_eq]
  have hz : (lat - lat) * π / 180 / 2 = 0 := by ring
  have hz' : (lng - lng) * π / 180 / 2 = 0 := by ring
  rw [hz, hz', Real.sin_zero]
  have ha : (0 : ℝ) * 0 + Real.cos (lat * π / 180) * Real.cos (lat * π / 180) * 0 * 0 = 0 := by
    ring
  rw [ha, Real.sqrt_zero, sub_zero, Real.sqrt_one]
  have h1 : atan2 0 1 = 0 := by
    unfold atan2
    rw [if_pos one_pos]
    simp [Real.arctan_zero]
  rw [h1]
  ring

/-- On the equator the haversine formula reduces to arc length: for
longitudes less than 180 degrees apart the distance is the Earth radius
times the longitude difference in radians. -/
theorem haversine_equator (g1 g2 : ℝ) (h : |g2 - g1| < 180) :
    haversineDistance 0 g1 0 g2 = 6371000 * (|g2 - g1| * π / 180) := by
  rw [haversineDistance_eq]
  have h0 : ((0 : ℝ) - 0) * π / 180 / 2 = 0 := by ring
  rw [h0, Real.sin_zero, show (0 : ℝ) * π / 180 = 0 by ring, Real.cos_zero]
  have habs : |(g2 - g1) * π / 180 / 2| < π / 2 := by
    rw [show (g2 - g1) * π / 180 / 2 = (g2 - g1) * (π / 360) by ring, abs_mul,
      abs_of_pos (by positivity : (0 : ℝ) < π / 360)]
    calc |g2 - g1| * (π / 360) < 180 * (π / 360) :=
          mul_lt_mul_of_pos_right h (by positivity)
      _ = π / 2 := by ring
  set θ : ℝ := (g2 - g1) * π / 180 / 2 with hθdef
  have hθlo : -(π / 2) < θ := (abs_lt.mp habs).1
  have hθhi : θ < π / 2 := (abs_lt.mp habs).2
  have hcore : (0 : ℝ) * 0 + 1 * 1 * Real.sin θ * Real.sin θ = Real.sin θ ^ 2 := by ring
  rw [hcore]
  have h1ms : 1 - Real.sin θ ^ 2 = Real.cos θ ^ 2 := by
    have hpy := Real.sin_sq_add_cos_sq θ
    linarith
  have hcos : 0 < Real.cos θ := Real.cos_pos_of_mem_Ioo ⟨hθlo, hθhi⟩
  rw [Real.sqrt_sq_eq_abs, h1ms, Real.sqrt_sq_eq_abs, abs_of_pos hcos]
  have habs_sin : |Real.sin θ| = Real.sin |θ| := by
    rcases abs_cases θ with ⟨he, hpos⟩ | ⟨he, hneg⟩
    · rw [he, abs_of_nonneg]
      exact Real.sin_nonneg_of_nonneg_of_le_pi hpos
        (le_trans (le_of_lt hθhi) (by linarith [Real.pi_pos]))
    · rw [he, Real.sin_neg, abs_of_nonpos]
      have h1 : Real.sin (-θ) ≥ 0 :=
        Real.sin_nonneg_of_nonneg_of_le_pi (by linarith) (by linarith [Real.pi_pos])
      rw [Real.sin_neg] at h1
      linarith
  have hcosabs : Real.cos θ = Real.cos |θ| := by
    rcases abs_cases θ with ⟨he, _⟩ | ⟨he, _⟩
    · rw [he]
    · rw [he, Real.cos_neg]
  have hatan : atan2 |Real.sin θ| (Real.cos θ) = |θ| := by
    unfold atan2
    rw [if_pos hcos, habs_sin, hcosabs, ← Real.tan_eq_sin_div_cos]
    apply Real.arctan_tan
    · calc -(π / 2) < 0 := by linarith [Real.pi_pos]
        _ ≤ |θ| := abs_nonneg θ
    · exact habs
  rw [hatan, hθdef]
  rw [show (g2 - g1) * π / 180 / 2 = (g2 - g1) * (π / 360) by ring, abs_mul,
    abs_of_pos (by positivity : (0 : ℝ) < π / 360)]
  ring

/-- Insertion sort fixes an already-sorted singleton. -/
theorem insertionSort_one {α : Type} (r : α → α → Prop) [DecidableRel r] (x : α) :
    List.insertionSort r [x] = [x] := rfl

/-- Insertion sort fixes an already-sorted pair. -/
theorem insertionSort_two {α : Type} (r : α → α → Prop) [DecidableRel r] (x y : α)
    (hxy : r x y) : List.insertionSort r [x, y] = [x, y] := by
  simp [List.insertionSort, List.orderedInsert, hxy]

/-- Insertion sort fixes an already-sorted triple. -/
theorem insertionSort_three {α : Type} (r : α → α → Prop) [DecidableRel r] (x y z : α)
    (hxy : r x y) (hyz : r y z) : List.insertionSort r [x, y, z] = [x, y, z] := by
  simp [List.insertionSort, List.orderedInsert, hxy, hyz]

/-- Start stop of the concrete end-to-end scenario: on the equator at
longitude 0. -/
def sTB : TacoBellLocation := ⟨0, 0, "", "s", "Taco Bell"⟩

/-- Scenario stop at longitude -1/16 degree. -/
noncomputable def aTB : TacoBellLocation := ⟨0, -(1/16), "", "a", "Taco Bell"⟩

/-- Scenario stop at longitude 1/16 degree. -/
noncomputable def bTB : TacoBellLocation := ⟨0, 1/16, "", "b", "Taco Bell"⟩

/-- Scenario stop at longitude 1/8 degree. -/
noncomputable def cTB : TacoBellLocation := ⟨0, 1/8, "", "c", "Taco Bell"⟩

/-- The haversine distance corresponding to 1/16 degree of longitude on the
equator, about 6 950 m. -/
noncomputable def uDist : ℝ := 6371000 * π / 2880

/-- Scenario leg: start to `aTB`. -/
theorem dist_s_a : haversineDistance sTB.lat sTB.lng aTB.lat aTB.lng = uDist := by
  show haversineDistance 0 0 0 (-(1/16)) = uDist
  rw [haversine_equator 0 (-(1/16))
    (by rw [sub_zero, abs_neg, abs_of_nonneg] <;> norm_num),
    sub_zero, abs_neg, abs_of_nonneg (by norm_num : (0:ℝ) ≤ 1/16)]
  unfold uDist
  ring

/-- Scenario leg: start to `bTB`. -/
theorem dist_s_b : haversineDistance sTB.lat sTB.lng bTB.lat bTB.lng = uDist := by
  show haversineDistance 0 0 0 (1/16) = uDist
  rw [haversine_equator 0 (1/16)
    (by rw [sub_zero, abs_of_nonneg] <;> norm_num),
    sub_zero, abs_of_nonneg (by norm_num : (0:ℝ) ≤ 1/16)]
  unfold uDist
  ring

/-- Scenario leg: start to `cTB`. -/
theorem dist_s_c : haversineDistance sTB.lat sTB.lng cTB.lat cTB.lng = 2 * uDist := by
  show haversineDistance 0 0 0 (1/8) = 2 * uDist
  rw [haversine_equator 0 (1/8)
    (by rw [sub_zero, abs_of_nonneg] <;> norm_num),
    sub_zero, abs_of_nonneg (by norm_num : (0:ℝ) ≤ 1/8)]
  unfold uDist
  ring

/-- Scenario leg: `aTB` to `bTB`. -/
theorem dist_a_b : haversineDistance aTB.lat aTB.lng bTB.lat bTB.lng = 2 * uDist := by
  show haversineDistance 0 (-(1/16)) 0 (1/16) = 2 * uDist
  rw [haversine_equator (-(1/16)) (1/16)
    (by rw [show ((1/16) : ℝ) - (-(1/16)) = 1/8 by norm_num, abs_of_nonneg] <;> norm_num),
    show ((1/16) : ℝ) - (-(1/16)) = 1/8 by norm_num,
    abs_of_nonneg (by norm_num : (0:ℝ) ≤ 1/8)]
  unfold uDist
  ring

/-- Scenario leg: `aTB` to `cTB`. -/
theorem dist_a_c : haversineDistance aTB.lat aTB.lng cTB.lat cTB.lng = 3 * uDist := by
  show haversineDistance 0 (-(1/16)) 0 (1/8) = 3 * uDist
  rw [haversine_equator (-(1/16)) (1/8)
    (by rw [show ((1/8) : ℝ) - (-(1/16)) = 3/16 by norm_num, abs_of_nonneg] <;> norm_num),
    show ((1/8) : ℝ) - (-(1/16)) = 3/16 by norm_num,
    abs_of_nonneg (by norm_num : (0:ℝ) ≤ 3/16)]
  unfold uDist
  ring

/-- Scenario leg: `bTB` to `cTB`. -/
theorem dist_b_c : haversineDistance bTB.lat bTB.lng cTB.lat cTB.lng = uDist := by
  show haversineDistance 0 (1/16) 0 (1/8) = uDist
  rw [haversine_equator (1/16) (1/8)
    (by rw [show ((1/8) : ℝ) - (1/16) = 1/16 by norm_num, abs_of_nonneg] <;> norm_num),
    show ((1/8) : ℝ) - (1/16) = 1/16 by norm_num,
    abs_of_nonneg (by norm_num : (0:ℝ) ≤ 1/16)]
  unfold uDist
  ring

/-- Scenario leg: `bTB` back to the start. -/
theorem dist_b_s : haversineDistance bTB.lat bTB.lng sTB.lat sTB.lng = uDist := by
  show haversineDistance 0 (1/16) 0 0 = uDist
  rw [haversine_equator (1/16) 0
    (by rw [zero_sub, abs_neg, abs_of_nonneg] <;> norm_num),
    zero_sub, abs_neg, abs_of_nonneg (by norm_num : (0:ℝ) ≤ 1/16)]
  unfold uDist
  ring

/-- Scenario leg: `cTB` back to the start. -/
theorem dist_c_s : haversineDistance cTB.lat cTB.lng sTB.lat sTB.lng = 2 * uDist := by
  show haversineDistance 0 (1/8) 0 0 = 2 * uDist
  rw [haversine_equator (1/8) 0
    (by rw [zero_sub, abs_neg, abs_of_nonneg] <;> norm_num),
    zero_sub, abs_neg, abs_of_nonneg (by norm_num : (0:ℝ) ≤ 1/8)]
  unfold uDist
  ring

/-- The scenario leg length is positive. -/
theorem uDist_pos : 0 < uDist := by
  unfold uDist
  positivity

/-- The scenario leg length is below the generator's 24 140 m pool
radius. -/
theorem uDist_le_radius : uDist ≤ 24140 := by
  unfold uDist
  nlinarith [Real.pi_lt_d2]

/-- Twice the scenario leg length is below the pool radius. -/
theorem two_uDist_le_radius : 2 * uDist ≤ 24140 := by
  unfold uDist
  nlinarith [Real.pi_lt_d2]

/-- Scenario stop at longitude 1/4 degree, used by the spacing-score
counterexample. -/
noncomputable def dTB : TacoBellLocation := ⟨0, 1/4, "", "d", "Taco Bell"⟩

/-- Scenario leg: `bTB` to `dTB`, three leg units. -/
theorem dist_b_d : haversineDistance bTB.lat bTB.lng dTB.lat dTB.lng = 3 * uDist := by
  show haversineDistance 0 (1/16) 0 (1/4) = 3 * uDist
  rw [haversine_equator (1/16) (1/4)
    (by rw [show ((1/4) : ℝ) - (1/16) = 3/16 by norm_num, abs_of_nonneg] <;> norm_num),
    show ((1/4) : ℝ) - (1/16) = 3/16 by norm_num,
    abs_of_nonneg (by norm_num : (0:ℝ) ≤ 3/16)]
  unfold uDist
  ring

/-- C7 (counterexample): on the closed loop start → `aTB` → `bTB` → start,
with legs of one, two and one units, the coefficient of variation of the
leg distances is √2/4, but the sub-score computed by
`calculateSegmentSpacingVariance` is 250·√2 — one thousand times the CV,
so on a closed loop the sub-score does not equal the CV. -/
theorem spacingVariance_counterexample :
    ([sTB, aTB, bTB, sTB] : List TacoBellLocation).headD dummyStop = sTB ∧
    ([sTB, aTB, bTB, sTB] : List TacoBellLocation).getLastD dummyStop = sTB ∧
    calculateSegmentSpacingVariance [sTB, aTB, bTB, sTB] =
      ((250 * Real.sqrt 2 : ℝ) : EReal) ∧
    legSpacingCV [sTB, aTB, bTB, sTB] = Real.sqrt 2 / 4 ∧
    calculateSegmentSpacingVariance [sTB, aTB, bTB, sTB] ≠
      ((legSpacingCV [sTB, aTB, bTB, sTB] : ℝ) : EReal) := by
  have hds : segmentDistances [sTB, aTB, bTB, sTB] =
      [haversineDistance sTB.lat sTB.lng aTB.lat aTB.lng,
        haversineDistance aTB.lat aTB.lng bTB.lat bTB.lng,
        haversineDistance bTB.lat bTB.lng sTB.lat sTB.lng] := rfl
  rw [dist_s_a, dist_a_b, dist_b_s] at hds
  have hsum : ([uDist, 2 * uDist, uDist] : List ℝ).sum = 4 * uDist := by
    simp [List.sum_cons]
    ring
  have hlen : (([uDist, 2 * uDist, uDist] : List ℝ).length : ℝ) = 3 := by norm_num
  have hmean : ([uDist, 2 * uDist, uDist] : List ℝ).sum /
      (([uDist, 2 * uDist, uDist] : List ℝ).length : ℝ) = 4 * uDist / 3 := by
    rw [hsum, hlen]
  have hvar : (([uDist, 2 * uDist, uDist] : List ℝ).map fun d =>
      (d - ([uDist, 2 * uDist, uDist] : List ℝ).sum /
        (([uDist, 2 * uDist, uDist] : List ℝ).length : ℝ)) ^ 2).sum /
      (([uDist, 2 * uDist, uDist] : List ℝ).length : ℝ) = 2 * (uDist / 3) ^ 2 := by
    rw [hsum, hlen]
    simp [List.map_cons, List.sum_cons]
    ring
  have hcv : legSpacingCV [sTB, aTB, bTB, sTB] = Real.sqrt 2 / 4 := by
    unfold legSpacingCV
    rw [hds]
    simp only
    rw [hvar, hmean, Real.sqrt_mul (by norm_num : (0:ℝ) ≤ 2),
      Real.sqrt_sq (by linarith [uDist_pos] : (0:ℝ) ≤ uDist / 3),
      div_eq_div_iff (ne_of_gt (show (0:ℝ) < 4 * uDist / 3 by linarith [uDist_pos]))
        (by norm_num : (4:ℝ) ≠ 0)]
    ring
  have hcsv : calculateSegmentSpacingVariance [sTB, aTB, bTB, sTB] =
      ((250 * Real.sqrt 2 : ℝ) : EReal) := by
    unfold calculateSegmentSpacingVariance
    rw [if_neg (by norm_num)]
    rw [hds]
    simp only
    rw [if_neg (by norm_num), if_pos (by rw [hmean]; linarith [uDist_pos])]
    rw [hvar, hmean, Real.sqrt_mul (by norm_num : (0:ℝ) ≤ 2),
      Real.sqrt_sq (by linarith [uDist_pos] : (0:ℝ) ≤ uDist / 3)]
    congr 1
    have hne := ne_of_gt uDist_pos
    field_simp
    ring
  refine ⟨rfl, rfl, hcsv, hcv, ?_⟩
  rw [hcsv, hcv, Ne, EReal.coe_eq_coe_iff]
  intro h
  have hs2 : 0 < Real.sqrt 2 := Real.sqrt_pos.mpr (by norm_num)
  linarith

/-- C7 (witness for the amended theorem): the amended statement applied to
the same closed loop, whose mean leg length is positive. -/
theorem spacingVariance_witness :
    2 ≤ ([sTB, aTB, bTB, sTB] : List TacoBellLocation).length ∧
    0 < (segmentDistances [sTB, aTB, bTB, sTB]).sum /
      ((segmentDistances [sTB, aTB, bTB, sTB]).length : ℝ) ∧
    calculateSegmentSpacingVariance [sTB, aTB, bTB, sTB] =
      ((legSpacingCV [sTB, aTB, bTB, sTB] * 1000 : ℝ) : EReal) := by
  have hds : segmentDistances [sTB, aTB, bTB, sTB] =
      [haversineDistance sTB.lat sTB.lng aTB.lat aTB.lng,
        haversineDistance aTB.lat aTB.lng bTB.lat bTB.lng,
        haversineDistance bTB.lat bTB.lng sTB.lat sTB.lng] := rfl
  rw [dist_s_a, dist_a_b, dist_b_s] at hds
  have hm : 0 < (segmentDistances [sTB, aTB, bTB, sTB]).sum /
      ((segmentDistances [sTB, aTB, bTB, sTB]).length : ℝ) := by
    have hsum : (segmentDistances [sTB, aTB, bTB, sTB]).sum = 4 * uDist := by
      rw [hds]
      simp [List.sum_cons]
      ring
    have hl : ((segmentDistances [sTB, aTB, bTB, sTB]).length : ℝ) = 3 := by
      rw [hds]
      norm_num
    rw [hsum, hl]
    linarith [uDist_pos]
  exact ⟨by norm_num, hm, spacingVariance_eq_1000_CV [sTB, aTB, bTB, sTB] (by norm_num) hm⟩

/-- The default-valued head of a nonempty list is a member. -/
theorem headD_mem_of_ne_nil {α : Type} (l : List α) (d : α) (h : l ≠ []) : l.headD d ∈ l := by
  cases l with
  | nil => exact absurd rfl h
  | cons x xs => exact List.mem_cons_self x xs

/-- The default-valued indexed access of a list is a member when in
bounds. -/
theorem getD_mem_of_lt {α : Type} (l : List α) (n : Nat) (d : α) (h : n < l.length) :
    l.getD n d ∈ l := by
  rw [List.getD_eq_getElem?_getD, List.getElem?_eq_getElem h]
  exact List.getElem_mem h

/-- Whatever stop `selectNext` returns was taken from the shuffled pool
and is not yet on the route. -/
theorem selectNext_mem (targetKm : ℝ) (nStops : Nat) (shuffled : List TacoBellLocation)
    (pickBest : Nat → Bool) (pickIdx : Nat → Nat) (route : List TacoBellLocation)
    (tb : TacoBellLocation)
    (h : selectNext targetKm nStops shuffled pickBest pickIdx route = some tb) :
    tb ∈ shuffled ∧ ∀ x ∈ route, x.placeId ≠ tb.placeId := by
  unfold selectNext at h
  simp only at h
  set P : TacoBellLocation → Bool :=
    fun c => !(route.any fun x => x.placeId == c.placeId) with hP
  by_cases he : ((shuffled.filter P).map fun c =>
      (c, haversineDistance (route.getLastD dummyStop).lat (route.getLastD dummyStop).lng
        c.lat c.lng,
        |haversineDistance (route.getLastD dummyStop).lat (route.getLastD dummyStop).lng
          c.lat c.lng - targetKm / 1.18 * 0.9 / (nStops : ℝ) * 1000|)).isEmpty
  · rw [if_pos he] at h
    exact Option.noConfusion h
  · rw [if_neg he] at h
    have hmem : ∀ y ∈ List.insertionSort
        (fun x y : TacoBellLocation × ℝ × ℝ => x.2.2 ≤ y.2.2)
        ((List.insertionSort (fun x y : TacoBellLocation × ℝ × ℝ => x.2.1 ≤ y.2.1)
          ((shuffled.filter P).map fun c =>
            (c, haversineDistance (route.getLastD dummyStop).lat
              (route.getLastD dummyStop).lng c.lat c.lng,
              |haversineDistance (route.getLastD dummyStop).lat
                (route.getLastD dummyStop).lng c.lat c.lng -
                targetKm / 1.18 * 0.9 / (nStops : ℝ) * 1000|))).map fun x =>
          (x.1, x.2.1, 0.7 * (x.2.1 / (targetKm / 1.18 * 0.9 / (nStops : ℝ) * 1000)) +
            0.3 * (x.2.2 / (targetKm / 1.18 * 0.9 / (nStops : ℝ) * 1000)))),
        y.1 ∈ shuffled.filter P := by
      intro y hy
      rw [List.mem_insertionSort] at hy
      rw [List.mem_map] at hy
      obtain ⟨x, hx, hxy⟩ := hy
      rw [List.mem_insertionSort, List.mem_map] at hx
      obtain ⟨c, hc, hcx⟩ := hx
      have : y.1 = c := by rw [← hxy, ← hcx]
      rw [this]
      exact hc
    set sorted2 := List.insertionSort
        (fun x y : TacoBellLocation × ℝ × ℝ => x.2.2 ≤ y.2.2)
        ((List.insertionSort (fun x y : TacoBellLocation × ℝ × ℝ => x.2.1 ≤ y.2.1)
          ((shuffled.filter P).map fun c =>
            (c, haversineDistance (route.getLastD dummyStop).lat
              (route.getLastD dummyStop).lng c.lat c.lng,
              |haversineDistance (route.getLastD dummyStop).lat
                (route.getLastD dummyStop).lng c.lat c.lng -
                targetKm / 1.18 * 0.9 / (nStops : ℝ) * 1000|))).map fun x =>
          (x.1, x.2.1, 0.7 * (x.2.1 / (targetKm / 1.18 * 0.9 / (nStops : ℝ) * 1000)) +
            0.3 * (x.2.2 / (targetKm / 1.18 * 0.9 / (nStops : ℝ) * 1000)))) with hs2
    have hlen : sorted2.length ≠ 0 := by
      rw [hs2, List.length_insertionSort, List.length_map, List.length_insertionSort]
      intro hzero
      have hnil := List.length_eq_zero.mp hzero
      simp only [hnil, List.isEmpty_nil, not_true] at he
    have hpool : ∀ y ∈ sorted2, y.1 ∈ shuffled.filter P := hmem
    have hget : ∃ y ∈ sorted2, tb = y.1 := by
      by_cases hb : pickBest route.length ∨ sorted2.length = 1
      · rw [if_pos hb] at h
        have hne : sorted2 ≠ [] := fun hnil => hlen (by rw [hnil]; rfl)
        exact ⟨sorted2.headD (dummyStop, 0, 0), headD_mem_of_ne_nil _ _ hne,
          (Option.some.inj h).symm⟩
      · rw [if_neg hb] at h
        have hidx : pickIdx route.length % min 3 sorted2.length < sorted2.length := by
          have h3 : 0 < min 3 sorted2.length := by
            rcases Nat.eq_zero_or_pos sorted2.length with h0 | hp
            · exact absurd h0 hlen
            · omega
          exact lt_of_lt_of_le (Nat.mod_lt _ h3) (min_le_right _ _)
        exact ⟨sorted2.getD (pickIdx route.length % min 3 sorted2.length) (dummyStop, 0, 0),
          getD_mem_of_lt _ _ _ hidx, (Option.some.inj h).symm⟩
    obtain ⟨y, hy, hty⟩ := hget
    have hf := hpool y hy
    rw [List.mem_filter] at hf
    constructor
    · rw [hty]
      exact hf.1
    · intro x hx
      have hp := hf.2
      rw [hP] at hp
      simp only [Bool.not_eq_true'] at hp
      rw [List.any_eq_false] at hp
      have := hp x hx
      rw [hty]
      simpa using this

/-- When some shuffled stop is still available, `selectNext` yields a
stop. -/
theorem selectNext_isSome (targetKm : ℝ) (nStops : Nat) (shuffled : List TacoBellLocation)
    (pickBest : Nat → Bool) (pickIdx : Nat → Nat) (route : List TacoBellLocation)
    (hne : shuffled.filter (fun c => !(route.any fun x => x.placeId == c.placeId)) ≠ []) :
    ∃ tb, selectNext targetKm nStops shuffled pickBest pickIdx route = some tb := by
  unfold selectNext
  simp only
  have he : ¬ ((shuffled.filter fun c => !(route.any fun x => x.placeId == c.placeId)).map
      fun c =>
        (c, haversineDistance (route.getLastD dummyStop).lat (route.getLastD dummyStop).lng
          c.lat c.lng,
          |haversineDistance (route.getLastD dummyStop).lat (route.getLastD dummyStop).lng
            c.lat c.lng - targetKm / 1.18 * 0.9 / (nStops : ℝ) * 1000|)).isEmpty = true := by
    intro hcontra
    apply hne
    have := List.isEmpty_iff.mp hcontra
    exact List.map_eq_nil_iff.mp this
  rw [if_neg he]
  split
  · exact ⟨_, rfl⟩
  · exact ⟨_, rfl⟩

/-- Every stop of a built route comes from the initial route or the
shuffled pool. -/
theorem buildLoop_mem (targetKm : ℝ) (nStops : Nat) (shuffled : List TacoBellLocation)
    (pickBest : Nat → Bool) (pickIdx : Nat → Nat) :
    ∀ (fuel : Nat) (route : List TacoBellLocation) (x : TacoBellLocation),
      x ∈ buildLoop targetKm nStops shuffled pickBest pickIdx fuel route →
      x ∈ route ∨ x ∈ shuffled := by
  intro fuel
  induction fuel with
  | zero => intro route x hx; exact Or.inl hx
  | succ n ih =>
    intro route x hx
    rw [buildLoop] at hx
    by_cases hlt : route.length < nStops
    · rw [if_pos hlt] at hx
      cases hsel : selectNext targetKm nStops shuffled pickBest pickIdx route with
      | none =>
        rw [hsel] at hx
        exact Or.inl hx
      | some tb =>
        rw [hsel] at hx
        rcases ih (route ++ [tb]) x hx with hin | hin
        · rcases List.mem_append.mp hin with hr | hs
          · exact Or.inl hr
          · have := List.mem_singleton.mp hs
            subst this
            exact Or.inr (selectNext_mem targetKm nStops shuffled pickBest pickIdx route x
              hsel).1
        · exact Or.inr hin
    · rw [if_neg hlt] at hx
      exact Or.inl hx

/-- Full invariant of the construction loop: starting from the start stop
with distinct identifiers and at least `nStops - 1` distinct available
nearby stops none of which carries the start identifier, the loop
terminates with exactly `nStops` stops — start followed by interior stops
drawn from the pool — with pairwise distinct identifiers. -/
theorem buildLoop_spec (start : TacoBellLocation) (nearby shuffled : List TacoBellLocation)
    (targetKm : ℝ) (nStops : Nat) (pickBest : Nat → Bool) (pickIdx : Nat → Nat)
    (hperm : shuffled ~ nearby)
    (hnodupN : (nearby.map (fun tb => tb.placeId)).Nodup)
    (hstart : start.placeId ∉ nearby.map (fun tb => tb.placeId))
    (hcount : nStops - 1 ≤ nearby.length) :
    ∀ (fuel : Nat) (interior : List TacoBellLocation),
      (∀ x ∈ interior, x ∈ nearby) →
      (((start :: interior).map (fun tb => tb.placeId)).Nodup) →
      (start :: interior).length ≤ nStops →
      nStops ≤ (start :: interior).length + fuel →
      ∃ interior2 : List TacoBellLocation,
        buildLoop targetKm nStops shuffled pickBest pickIdx fuel (start :: interior) =
          start :: interior2 ∧
        (∀ x ∈ interior2, x ∈ nearby) ∧
        (((start :: interior2).map (fun tb => tb.placeId)).Nodup) ∧
        (start :: interior2).length = nStops := by
  intro fuel
  induction fuel with
  | zero =>
    intro interior hsub hnd hle hge
    rw [buildLoop]
    exact ⟨interior, rfl, hsub, hnd, le_antisymm hle (by simpa using hge)⟩
  | succ n ih =>
    intro interior hsub hnd hle hge
    rw [buildLoop]
    by_cases hlt : (start :: interior).length < nStops
    · rw [if_pos hlt]
      have hne : shuffled.filter
          (fun c => !((start :: interior).any fun x => x.placeId == c.placeId)) ≠ [] := by
        intro hnil
        have hall : ∀ c ∈ shuffled,
            ¬ (!((start :: interior).any fun x => x.placeId == c.placeId)) = true := by
          intro c hc
          exact List.filter_eq_nil_iff.mp hnil c hc
        have hsubids : ∀ y ∈ nearby, y.placeId ∈ interior.map (fun tb => tb.placeId) := by
          intro y hy
          have hy' : y ∈ shuffled := hperm.mem_iff.mpr hy
          have h1 := hall y hy'
          simp only [Bool.not_eq_true', Bool.not_eq_false] at h1
          rw [List.any_eq_true] at h1
          obtain ⟨x, hx, hxy⟩ := h1
          have hxy' : x.placeId = y.placeId := by simpa using hxy
          rcases List.mem_cons.mp hx with hxs | hxi
          · exfalso
            apply hstart
            exact List.mem_map.mpr ⟨y, hy, by rw [← hxy', hxs]⟩
          · exact List.mem_map.mpr ⟨x, hxi, hxy'⟩
        have hcard : nearby.length ≤ interior.length := by
          have h1 : (nearby.map (fun tb => tb.placeId)).toFinset ⊆
              (interior.map (fun tb => tb.placeId)).toFinset := by
            intro pid hpid
            rw [List.mem_toFinset] at hpid ⊢
            obtain ⟨y, hy, hyp⟩ := List.mem_map.mp hpid
            exact hyp ▸ hsubids y hy
          have h2 : (nearby.map (fun tb => tb.placeId)).toFinset.card = nearby.length := by
            rw [List.toFinset_card_of_nodup hnodupN, List.length_map]
          have h3 : (interior.map (fun tb => tb.placeId)).toFinset.card ≤ interior.length := by
            calc (interior.map (fun tb => tb.placeId)).toFinset.card
                ≤ (interior.map (fun tb => tb.placeId)).length := List.toFinset_card_le _
              _ = interior.length := List.length_map _ _
          calc nearby.length = (nearby.map (fun tb => tb.placeId)).toFinset.card := h2.symm
            _ ≤ (interior.map (fun tb => tb.placeId)).toFinset.card := Finset.card_le_card h1
            _ ≤ interior.length := h3
        have : (start :: interior).length ≤ nStops - 1 := by omega
        simp only [List.length_cons] at this hlt
        omega
      obtain ⟨tb, hsel⟩ := selectNext_isSome targetKm nStops shuffled pickBest pickIdx
        (start :: interior) hne
      rw [hsel]
      have hmem := selectNext_mem targetKm nStops shuffled pickBest pickIdx
        (start :: interior) tb hsel
      have hsub2 : ∀ x ∈ interior ++ [tb], x ∈ nearby := by
        intro x hx
        rcases List.mem_append.mp hx with hxi | hxt
        · exact hsub x hxi
        · have := List.mem_singleton.mp hxt
          subst this
          exact hperm.mem_iff.mp hmem.1
      have hnd2 : (((start :: (interior ++ [tb])).map (fun tb => tb.placeId)).Nodup) := by
        have hni : tb.placeId ∉ ((start :: interior).map (fun tb => tb.placeId)) := by
          intro hin
          obtain ⟨x, hx, hxp⟩ := List.mem_map.mp hin
          exact hmem.2 x hx hxp
        have : (start :: (interior ++ [tb])).map (fun tb => tb.placeId) =
            ((start :: interior).map (fun tb => tb.placeId)) ++ [tb.placeId] := by simp
        rw [this]
        rw [List.nodup_append]
        exact ⟨hnd, List.nodup_singleton _, by
          intro a ha hb
          have := List.mem_singleton.mp hb
          subst this
          exact hni ha⟩
      have hlapp : (start :: (interior ++ [tb])).length = (start :: interior).length + 1 := by
        simp
      have hle2 : (start :: (interior ++ [tb])).length ≤ nStops := by
        rw [hlapp]
        omega
      have hge2 : nStops ≤ (start :: (interior ++ [tb])).length + n := by
        rw [hlapp]
        omega
      exact ih (interior ++ [tb]) hsub2 hnd2 hle2 hge2
    · rw [if_neg hlt]
      exact ⟨interior, rfl, hsub, hnd, le_antisymm hle (le_of_not_lt hlt)⟩

/-- The default-valued last element of a nonempty list is a member. -/
theorem getLastD_mem_of_ne_nil {α : Type} (l : List α) (d : α) (h : l ≠ []) :
    l.getLastD d ∈ l := by
  rw [List.getLastD_eq_getLast?, List.getLast?_eq_getLast l h]
  exact List.getLast_mem h

/-- Members of the generator's nearby pool are within 24 140 m of the
start and carry an identifier different from the start's. -/
theorem nearbyOf_props (start : TacoBellLocation) (pool : List TacoBellLocation)
    (x : TacoBellLocation) (hx : x ∈ nearbyOf start pool) :
    x ∈ pool ∧ haversineDistance start.lat start.lng x.lat x.lng ≤ 24140 ∧
      x.placeId ≠ start.placeId := by
  unfold nearbyOf at hx
  rw [List.mem_filter] at hx
  refine ⟨hx.1, ?_, ?_⟩
  · have h := hx.2
    rw [Bool.and_eq_true] at h
    exact of_decide_eq_true h.1
  · have h := hx.2
    rw [Bool.and_eq_true] at h
    exact bne_iff_ne.mp h.2

/-- The start identifier never occurs in the nearby pool. -/
theorem nearbyOf_start_not_mem (start : TacoBellLocation) (pool : List TacoBellLocation) :
    start.placeId ∉ (nearbyOf start pool).map (fun tb => tb.placeId) := by
  intro h
  obtain ⟨x, hx, hxp⟩ := List.mem_map.mp h
  exact (nearbyOf_props start pool x hx).2.2 hxp

/-- Filtering preserves distinctness of the pool identifiers. -/
theorem nearbyOf_nodup (start : TacoBellLocation) (pool : List TacoBellLocation)
    (h : (pool.map (fun tb => tb.placeId)).Nodup) :
    ((nearbyOf start pool).map (fun tb => tb.placeId)).Nodup := by
  unfold nearbyOf
  exact h.sublist ((List.filter_sublist pool).map (fun tb => tb.placeId))

/-- For a requested stop count of at most one the construction loop never
runs and the closing push is skipped: the produced route is the bare
start. -/
theorem closedRoute_small (start : TacoBellLocation) (nearby : List TacoBellLocation)
    (targetKm : ℝ) (nStops : Nat) (rand : RandSrc) (i : Nat) (h : nStops ≤ 1) :
    closedRoute start nearby targetKm nStops rand i = [start] := by
  unfold closedRoute
  have hloop : buildLoop targetKm nStops (rand.shuffle i nearby) (rand.pickBest i)
      (rand.pickIdx i) nStops [start] = [start] := by
    cases nStops with
    | zero => rfl
    | succ m =>
      rw [buildLoop, if_neg]
      simp only [List.length_cons, List.length_nil]
      omega
  simp only
  rw [hloop]
  rw [if_neg]
  rintro ⟨h1, -⟩
  simp at h1

/-- For a requested stop count of at least two, a successfully produced
route is the start, followed by `nStops - 1` interior pool stops with
pairwise distinct identifiers none of which is the start's, followed by
the start again. -/
theorem closedRoute_spec (start : TacoBellLocation) (nearby : List TacoBellLocation)
    (targetKm : ℝ) (nStops : Nat) (rand : RandSrc) (i : Nat)
    (hperm : ∀ j l, rand.shuffle j l ~ l)
    (hnodupN : ((nearby.map (fun tb => tb.placeId))).Nodup)
    (hstart : start.placeId ∉ nearby.map (fun tb => tb.placeId))
    (hcount : nStops - 1 ≤ nearby.length)
    (h2 : 2 ≤ nStops) :
    ∃ interior : List TacoBellLocation,
      closedRoute start nearby targetKm nStops rand i = (start :: interior) ++ [start] ∧
      (∀ x ∈ interior, x ∈ nearby) ∧
      (((start :: interior).map (fun tb => tb.placeId)).Nodup) ∧
      interior.length = nStops - 1 := by
  unfold closedRoute
  obtain ⟨interior2, hbuild, hsub, hnd, hlen⟩ :=
    buildLoop_spec start nearby (rand.shuffle i nearby) targetKm nStops
      (rand.pickBest i) (rand.pickIdx i) (hperm i nearby) hnodupN hstart hcount nStops []
      (by intro x hx; exact absurd hx (List.not_mem_nil x))
      (by simp)
      (by simp only [List.length_cons, List.length_nil]; omega)
      (by simp only [List.length_cons, List.length_nil]; omega)
  simp only
  rw [hbuild]
  have hi2 : interior2 ≠ [] := by
    intro hnil
    rw [hnil] at hlen
    simp at hlen
    omega
  have hlast : (start :: interior2).getLastD dummyStop ∈ interior2 := by
    rw [List.getLastD_cons]
    exact getLastD_mem_of_ne_nil interior2 start hi2
  have hlastid : ((start :: interior2).getLastD dummyStop).placeId ≠ start.placeId := by
    intro heq
    apply hstart
    rw [← heq]
    exact List.mem_map.mpr ⟨_, hsub _ hlast, rfl⟩
  rw [if_pos]
  · refine ⟨interior2, by simp, hsub, hnd, ?_⟩
    simp only [List.length_cons] at hlen
    omega
  · constructor
    · simp only [List.length_cons]
      simp only [List.length_cons] at hlen
      omega
    · exact hlastid

/-- Each candidate appended by one generator iteration carries the closed
route of that iteration as its stops. -/
theorem genIter_routes_subset (start : TacoBellLocation) (nearby : List TacoBellLocation)
    (targetKm : ℝ) (nStops : Nat) (rand : RandSrc) (s : GenState) (i : Nat)
    (c : RouteCandidate)
    (hc : c ∈ (genIter start nearby targetKm nStops rand s i).routes) :
    c ∈ s.routes ∨ c.stops = closedRoute start nearby targetKm nStops rand i := by
  unfold genIter at hc
  simp only at hc
  by_cases h1 : routeSignature (closedRoute start nearby targetKm nStops rand i) ∈ s.seenRoutes
  · rw [if_pos h1] at hc
    exact Or.inl hc
  · rw [if_neg h1] at hc
    by_cases h2 : routeDistance (closedRoute start nearby targetKm nStops rand i) / 1000 * 1.18 >
        targetKm * 1.1
    · rw [if_pos h2] at hc
      exact Or.inl hc
    · rw [if_neg h2] at hc
      rcases List.mem_append.mp hc with h | h
      · exact Or.inl h
      · right
        have := List.mem_singleton.mp h
        rw [this]

/-- Over the whole iteration fold, every produced candidate's stops are
the closed route of some iteration. -/
theorem genFold_routes (start : TacoBellLocation) (nearby : List TacoBellLocation)
    (targetKm : ℝ) (nStops : Nat) (rand : RandSrc) :
    ∀ (l : List Nat) (s : GenState) (c : RouteCandidate),
      c ∈ (l.foldl (genIter start nearby targetKm nStops rand) s).routes →
      c ∈ s.routes ∨ ∃ i, c.stops = closedRoute start nearby targetKm nStops rand i := by
  intro l
  induction l with
  | nil => intro s c hc; exact Or.inl hc
  | cons j js ih =>
    intro s c hc
    rcases ih (genIter start nearby targetKm nStops rand s j) c hc with h | h
    · rcases genIter_routes_subset start nearby targetKm nStops rand s j c h with h' | h'
      · exact Or.inl h'
      · exact Or.inr ⟨j, h'⟩
    · exact Or.inr h

/-- A successful generator run passed its pool-size guard, and each
returned candidate's stops are the closed route of some iteration over
the filtered nearby pool. -/
theorem generate_ok_mem (start : TacoBellLocation) (pool : List TacoBellLocation)
    (targetKm : ℝ) (nStops iterations : Nat) (rand : RandSrc)
    (routes : List RouteCandidate)
    (hok : generateCandidateRoutes start pool targetKm nStops iterations rand = .ok routes)
    (c : RouteCandidate) (hc : c ∈ routes) :
    nStops - 1 ≤ (nearbyOf start pool).length ∧
    ∃ i, c.stops = closedRoute start (nearbyOf start pool) targetKm nStops rand i := by
  unfold generateCandidateRoutes at hok
  by_cases hg : (nearbyOf start pool).length < nStops - 1
  · rw [if_pos hg] at hok
    exact Except.noConfusion hok
  · rw [if_neg hg] at hok
    have hr := Except.ok.inj hok
    refine ⟨le_of_not_lt hg, ?_⟩
    have hc' : c ∈ ((List.range iterations).foldl
        (genIter start (nearbyOf start pool) targetKm nStops rand) ⟨[], []⟩).routes := by
      rw [← hr] at hc
      exact (List.mem_insertionSort _).mp hc
    rcases genFold_routes start (nearbyOf start pool) targetKm nStops rand
      (List.range iterations) ⟨[], []⟩ c hc' with h | h
    · exact absurd h (List.not_mem_nil c)
    · exact h

/-- C4: every loop produced by `generateCandidateRoutes` (for any
randomness whose shuffles permute their input, and a pool with distinct
identifiers as the data model guarantees) is closed — it starts and ends
at the start stop — and its interior holds exactly `nStops - 1` stops
with pairwise distinct identifiers, none equal to the start's identifier:
together with the start counted once this is exactly `nStops` distinct
stop identifiers and no stop revisited mid-loop. -/
theorem generated_loop_closed_distinct (start : TacoBellLocation)
    (pool : List TacoBellLocation) (targetKm : ℝ) (nStops iterations : Nat) (rand : RandSrc)
    (hsh : ∀ i l, rand.shuffle i l ~ l)
    (hnodup : (pool.map (fun tb => tb.placeId)).Nodup)
    (routes : List RouteCandidate)
    (hok : generateCandidateRoutes start pool targetKm nStops iterations rand = .ok routes)
    (c : RouteCandidate) (hc : c ∈ routes) :
    c.stops ≠ [] ∧
    c.stops.headD dummyStop = start ∧
    c.stops.getLastD dummyStop = start ∧
    (((c.stops.drop 1).dropLast.map (fun tb => tb.placeId)).Nodup) ∧
    start.placeId ∉ (c.stops.drop 1).dropLast.map (fun tb => tb.placeId) ∧
    ((c.stops.drop 1).dropLast).length = nStops - 1 := by
  obtain ⟨hcount, i, hstops⟩ :=
    generate_ok_mem start pool targetKm nStops iterations rand routes hok c hc
  by_cases h2 : 2 ≤ nStops
  · obtain ⟨interior, hroute, hsub, hnd, hlen⟩ :=
      closedRoute_spec start (nearbyOf start pool) targetKm nStops rand i hsh
        (nearbyOf_nodup start pool hnodup) (nearbyOf_start_not_mem start pool) hcount h2
    rw [hstops, hroute]
    have hdrop : (((start :: interior) ++ [start]).drop 1).dropLast = interior := by
      rw [List.cons_append, List.drop_one, List.tail_cons, List.dropLast_concat]
    have hmap : (start :: interior).map (fun tb => tb.placeId) =
        start.placeId :: interior.map (fun tb => tb.placeId) := by simp
    rw [hmap, List.nodup_cons] at hnd
    refine ⟨by simp, by simp, ?_, ?_, ?_, ?_⟩
    · exact (List.getLastD_cons _ _ _).trans (List.getLastD_concat _ _ _)
    · rw [hdrop]
      exact hnd.2
    · rw [hdrop]
      exact hnd.1
    · rw [hdrop]
      exact hlen
  · have hsmall := closedRoute_small start (nearbyOf start pool) targetKm nStops rand i
      (by omega)
    rw [hstops, hsmall]
    refine ⟨by simp, rfl, rfl, by simp, by simp, ?_⟩
    simp
    omega
  
/-- C10: the Candidate Route Generator draws interior stops only from the
pool members within 24 140 m haversine distance of the start — a constant
radius that `generateCandidateRoutes` does not derive from any
configuration value — so every stop of every returned candidate is either
the start itself or lies within 24 140 m of it (with an identifier
different from the start's), and pool members farther away never appear. -/
theorem generated_route_within_radius (start : TacoBellLocation)
    (pool : List TacoBellLocation) (targetKm : ℝ) (nStops iterations : Nat) (rand : RandSrc)
    (hsh : ∀ i l, rand.shuffle i l ~ l)
    (routes : List RouteCandidate)
    (hok : generateCandidateRoutes start pool targetKm nStops iterations rand = .ok routes)
    (c : RouteCandidate) (hc : c ∈ routes)
    (st : TacoBellLocation) (hst : st ∈ c.stops) :
    st = start ∨ (st ∈ pool ∧
      haversineDistance start.lat start.lng st.lat st.lng ≤ 24140 ∧
      st.placeId ≠ start.placeId) := by
  obtain ⟨-, i, hstops⟩ :=
    generate_ok_mem start pool targetKm nStops iterations rand routes hok c hc
  rw [hstops] at hst
  unfold closedRoute at hst
  simp only at hst
  by_cases hcond : 1 < (buildLoop targetKm nStops (rand.shuffle i (nearbyOf start pool))
      (rand.pickBest i) (rand.pickIdx i) nStops [start]).length ∧
      ((buildLoop targetKm nStops (rand.shuffle i (nearbyOf start pool))
        (rand.pickBest i) (rand.pickIdx i) nStops [start]).getLastD dummyStop).placeId ≠
        start.placeId
  · rw [if_pos hcond] at hst
    rcases List.mem_append.mp hst with hin | hin
    · rcases buildLoop_mem targetKm nStops (rand.shuffle i (nearbyOf start pool))
        (rand.pickBest i) (rand.pickIdx i) nStops [start] st hin with h | h
      · exact Or.inl (List.mem_singleton.mp h)
      · have hn := (hsh i (nearbyOf start pool)).mem_iff.mp h
        exact Or.inr (nearbyOf_props start pool st hn)
    · exact Or.inl (List.mem_singleton.mp hin)
  · rw [if_neg hcond] at hst
    rcases buildLoop_mem targetKm nStops (rand.shuffle i (nearbyOf start pool))
      (rand.pickBest i) (rand.pickIdx i) nStops [start] st hst with h | h
    · exact Or.inl (List.mem_singleton.mp h)
    · have hn := (hsh i (nearbyOf start pool)).mem_iff.mp h
      exact Or.inr (nearbyOf_props start pool st hn)

/-- Deterministic randomness used by the concrete scenario: identity
shuffles and always taking the best-scored candidate. -/
def myRand : RandSrc := ⟨fun _ l => l, fun _ _ => true, fun _ _ => 0⟩

/-- The balance target of the construction step for stop count 3. -/
noncomputable def target3 : ℝ := 50 / 1.18 * 0.9 / ((3 : Nat) : ℝ) * 1000

/-- The balance target of the construction step for stop count 4. -/
noncomputable def target4 : ℝ := 50 / 1.18 * 0.9 / ((4 : Nat) : ℝ) * 1000

/-- One leg unit lies below the stop-count-3 balance target. -/
theorem uDist_le_target3 : uDist ≤ target3 := by
  unfold uDist target3
  norm_num
  nlinarith [Real.pi_lt_d2]

/-- The stop-count-3 balance target lies below two leg units. -/
theorem target3_le_two_uDist : target3 ≤ 2 * uDist := by
  unfold uDist target3
  norm_num
  nlinarith [Real.pi_gt_three]

/-- One leg unit lies below the stop-count-4 balance target. -/
theorem uDist_le_target4 : uDist ≤ target4 := by
  unfold uDist target4
  norm_num
  nlinarith [Real.pi_lt_d2]

/-- The stop-count-4 balance target lies below two leg units. -/
theorem target4_le_two_uDist : target4 ≤ 2 * uDist := by
  unfold uDist target4
  norm_num
  nlinarith [Real.pi_gt_three]

/-- The stop-count-3 target is positive. -/
theorem target3_pos : 0 < target3 := by
  unfold target3
  norm_num

/-- The stop-count-4 target is positive. -/
theorem target4_pos : 0 < target4 := by
  unfold target4
  norm_num

/-- Combined-score comparison for the first construction step at stop
count 3: a stop one leg unit away scores no worse than one two leg units
away. -/
theorem combined3_one_le_two :
    0.7 * (uDist / target3) + 0.3 * (|uDist - target3| / target3) ≤
    0.7 * (2 * uDist / target3) + 0.3 * (|2 * uDist - target3| / target3) := by
  rw [abs_of_nonpos (by linarith [uDist_le_target3]),
    abs_of_nonneg (by linarith [target3_le_two_uDist])]
  have hne := ne_of_gt target3_pos
  have h : 0.7 * (2 * uDist / target3) + 0.3 * ((2 * uDist - target3) / target3) -
      (0.7 * (uDist / target3) + 0.3 * (-(uDist - target3) / target3)) =
      (1.6 * uDist - 0.6 * target3) / target3 := by
    field_simp
    ring
  rw [← sub_nonneg, h]
  apply div_nonneg _ target3_pos.le
  rw [sub_nonneg]
  unfold uDist target3
  norm_num
  nlinarith [Real.pi_gt_three]

/-- Combined-score comparison: a stop two leg units away scores no worse
than one three leg units away once the target is below two units. -/
theorem combined_two_le_three (T : ℝ) (hT : 0 < T) (h2 : T ≤ 2 * uDist) :
    0.7 * (2 * uDist / T) + 0.3 * (|2 * uDist - T| / T) ≤
    0.7 * (3 * uDist / T) + 0.3 * (|3 * uDist - T| / T) := by
  rw [abs_of_nonneg (by linarith), abs_of_nonneg (by nlinarith [uDist_pos])]
  have hne := ne_of_gt hT
  have h : 0.7 * (3 * uDist / T) + 0.3 * ((3 * uDist - T) / T) -
      (0.7 * (2 * uDist / T) + 0.3 * ((2 * uDist - T) / T)) = uDist / T := by
    field_simp
    ring
  rw [← sub_nonneg, h]
  exact div_nonneg uDist_pos.le hT.le

/-- Combined-score comparison for the first construction step at stop
count 4. -/
theorem combined4_one_le_two :
    0.7 * (uDist / target4) + 0.3 * (|uDist - target4| / target4) ≤
    0.7 * (2 * uDist / target4) + 0.3 * (|2 * uDist - target4| / target4) := by
  rw [abs_of_nonpos (by linarith [uDist_le_target4]),
    abs_of_nonneg (by linarith [target4_le_two_uDist])]
  have hne := ne_of_gt target4_pos
  have h : 0.7 * (2 * uDist / target4) + 0.3 * ((2 * uDist - target4) / target4) -
      (0.7 * (uDist / target4) + 0.3 * (-(uDist - target4) / target4)) =
      (1.6 * uDist - 0.6 * target4) / target4 := by
    field_simp
    ring
  rw [← sub_nonneg, h]
  apply div_nonneg _ target4_pos.le
  rw [sub_nonneg]
  unfold uDist target4
  norm_num
  nlinarith [Real.pi_gt_three]

/-- First construction step at stop count 3: from the start, the stop at
one leg unit in pool order is selected. -/
theorem select3_step1 (i : Nat) :
    selectNext 50 3 [aTB, bTB, cTB] (myRand.pickBest i) (myRand.pickIdx i) [sTB] =
      some aTB := by
  unfold selectNext
  simp only
  simp only [show (([sTB] : List TacoBellLocation).getLastD dummyStop) = sTB from rfl,
    show ([aTB, bTB, cTB].filter fun c => !([sTB].any fun x => x.placeId == c.placeId)) =
      [aTB, bTB, cTB] from rfl,
    List.map_cons, List.map_nil, dist_s_a, dist_s_b, dist_s_c,
    show (50 / 1.18 * 0.9 / ((3 : Nat) : ℝ) * 1000 : ℝ) = target3 from rfl,
    List.isEmpty_cons, reduceIte]
  rw [insertionSort_three (fun x y : TacoBellLocation × ℝ × ℝ => x.2.1 ≤ y.2.1)
    (aTB, uDist, |uDist - target3|) (bTB, uDist, |uDist - target3|)
    (cTB, 2 * uDist, |2 * uDist - target3|) (le_refl _)
    (show uDist ≤ 2 * uDist by linarith [uDist_pos])]
  simp only [List.map_cons, List.map_nil]
  rw [insertionSort_three (fun x y : TacoBellLocation × ℝ × ℝ => x.2.2 ≤ y.2.2)
    (aTB, uDist, 0.7 * (uDist / target3) + 0.3 * (|uDist - target3| / target3))
    (bTB, uDist, 0.7 * (uDist / target3) + 0.3 * (|uDist - target3| / target3))
    (cTB, 2 * uDist, 0.7 * (2 * uDist / target3) + 0.3 * (|2 * uDist - target3| / target3))
    (le_refl _) combined3_one_le_two]
  rw [if_neg (show ¬ (false = true) by simp)]
  rw [if_pos (Or.inl (show myRand.pickBest i ([sTB] : List TacoBellLocation).length = true
    from rfl))]
  rfl

/-- The generator's pool filter keeps exactly the three non-start scenario
stops. -/
theorem nearby_eval : nearbyOf sTB [sTB, aTB, bTB, cTB] = [aTB, bTB, cTB] := by
  unfold nearbyOf
  have hs : (decide (haversineDistance sTB.lat sTB.lng sTB.lat sTB.lng ≤ 24140) &&
      (sTB.placeId != sTB.placeId)) = false := by
    rw [bne_self_eq_false, Bool.and_false]
  have ha : (decide (haversineDistance sTB.lat sTB.lng aTB.lat aTB.lng ≤ 24140) &&
      (aTB.placeId != sTB.placeId)) = true := by
    rw [dist_s_a, decide_eq_true uDist_le_radius]
    rfl
  have hb : (decide (haversineDistance sTB.lat sTB.lng bTB.lat bTB.lng ≤ 24140) &&
      (bTB.placeId != sTB.placeId)) = true := by
    rw [dist_s_b, decide_eq_true uDist_le_radius]
    rfl
  have hc : (decide (haversineDistance sTB.lat sTB.lng cTB.lat cTB.lng ≤ 24140) &&
      (cTB.placeId != sTB.placeId)) = true := by
    rw [dist_s_c, decide_eq_true two_uDist_le_radius]
    rfl
  simp only [List.filter_cons, List.filter_nil, hs, ha, hb, hc]
  simp

/-- Second construction step at stop count 3: from `aTB`, the stop `bTB`
two leg units away is selected over `cTB` at three. -/
theorem select3_step2 (i : Nat) :
    selectNext 50 3 [aTB, bTB, cTB] (myRand.pickBest i) (myRand.pickIdx i) [sTB, aTB] =
      some bTB := by
  unfold selectNext
  simp only
  simp only [show (([sTB, aTB] : List TacoBellLocation).getLastD dummyStop) = aTB from rfl,
    show ([aTB, bTB, cTB].filter fun c =>
      !([sTB, aTB].any fun x => x.placeId == c.placeId)) = [bTB, cTB] from rfl,
    List.map_cons, List.map_nil, dist_a_b, dist_a_c,
    show (50 / 1.18 * 0.9 / ((3 : Nat) : ℝ) * 1000 : ℝ) = target3 from rfl,
    List.isEmpty_cons]
  rw [insertionSort_two (fun x y : TacoBellLocation × ℝ × ℝ => x.2.1 ≤ y.2.1)
    (bTB, 2 * uDist, |2 * uDist - target3|) (cTB, 3 * uDist, |3 * uDist - target3|)
    (show 2 * uDist ≤ 3 * uDist by linarith [uDist_pos])]
  simp only [List.map_cons, List.map_nil]
  rw [insertionSort_two (fun x y : TacoBellLocation × ℝ × ℝ => x.2.2 ≤ y.2.2)
    (bTB, 2 * uDist, 0.7 * (2 * uDist / target3) + 0.3 * (|2 * uDist - target3| / target3))
    (cTB, 3 * uDist, 0.7 * (3 * uDist / target3) + 0.3 * (|3 * uDist - target3| / target3))
    (combined_two_le_three target3 target3_pos target3_le_two_uDist)]
  rw [if_neg (show ¬ (false = true) by simp)]
  rw [if_pos (Or.inl (show myRand.pickBest i ([sTB, aTB] : List TacoBellLocation).length = true
    from rfl))]
  rfl

/-- First construction step at stop count 4. -/
theorem select4_step1 (i : Nat) :
    selectNext 50 4 [aTB, bTB, cTB] (myRand.pickBest i) (myRand.pickIdx i) [sTB] =
      some aTB := by
  unfold selectNext
  simp only
  simp only [show (([sTB] : List TacoBellLocation).getLastD dummyStop) = sTB from rfl,
    show ([aTB, bTB, cTB].filter fun c => !([sTB].any fun x => x.placeId == c.placeId)) =
      [aTB, bTB, cTB] from rfl,
    List.map_cons, List.map_nil, dist_s_a, dist_s_b, dist_s_c,
    show (50 / 1.18 * 0.9 / ((4 : Nat) : ℝ) * 1000 : ℝ) = target4 from rfl,
    List.isEmpty_cons]
  rw [insertionSort_three (fun x y : TacoBellLocation × ℝ × ℝ => x.2.1 ≤ y.2.1)
    (aTB, uDist, |uDist - target4|) (bTB, uDist, |uDist - target4|)
    (cTB, 2 * uDist, |2 * uDist - target4|) (le_refl _)
    (show uDist ≤ 2 * uDist by linarith [uDist_pos])]
  simp only [List.map_cons, List.map_nil]
  rw [insertionSort_three (fun x y : TacoBellLocation × ℝ × ℝ => x.2.2 ≤ y.2.2)
    (aTB, uDist, 0.7 * (uDist / target4) + 0.3 * (|uDist - target4| / target4))
    (bTB, uDist, 0.7 * (uDist / target4) + 0.3 * (|uDist - target4| / target4))
    (cTB, 2 * uDist, 0.7 * (2 * uDist / target4) + 0.3 * (|2 * uDist - target4| / target4))
    (le_refl _) combined4_one_le_two]
  rw [if_neg (show ¬ (false = true) by simp)]
  rw [if_pos (Or.inl (show myRand.pickBest i ([sTB] : List TacoBellLocation).length = true
    from rfl))]
  rfl

/-- Second construction step at stop count 4. -/
theorem select4_step2 (i : Nat) :
    selectNext 50 4 [aTB, bTB, cTB] (myRand.pickBest i) (myRand.pickIdx i) [sTB, aTB] =
      some bTB := by
  unfold selectNext
  simp only
  simp only [show (([sTB, aTB] : List TacoBellLocation).getLastD dummyStop) = aTB from rfl,
    show ([aTB, bTB, cTB].filter fun c =>
      !([sTB, aTB].any fun x => x.placeId == c.placeId)) = [bTB, cTB] from rfl,
    List.map_cons, List.map_nil, dist_a_b, dist_a_c,
    show (50 / 1.18 * 0.9 / ((4 : Nat) : ℝ) * 1000 : ℝ) = target4 from rfl,
    List.isEmpty_cons]
  rw [insertionSort_two (fun x y : TacoBellLocation × ℝ × ℝ => x.2.1 ≤ y.2.1)
    (bTB, 2 * uDist, |2 * uDist - target4|) (cTB, 3 * uDist, |3 * uDist - target4|)
    (show 2 * uDist ≤ 3 * uDist by linarith [uDist_pos])]
  simp only [List.map_cons, List.map_nil]
  rw [insertionSort_two (fun x y : TacoBellLocation × ℝ × ℝ => x.2.2 ≤ y.2.2)
    (bTB, 2 * uDist, 0.7 * (2 * uDist / target4) + 0.3 * (|2 * uDist - target4| / target4))
    (cTB, 3 * uDist, 0.7 * (3 * uDist / target4) + 0.3 * (|3 * uDist - target4| / target4))
    (combined_two_le_three target4 target4_pos target4_le_two_uDist)]
  rw [if_neg (show ¬ (false = true) by simp)]
  rw [if_pos (Or.inl (show myRand.pickBest i ([sTB, aTB] : List TacoBellLocation).length = true
    from rfl))]
  rfl

/-- Third construction step at stop count 4: only `cTB` remains. -/
theorem select4_step3 (i : Nat) :
    selectNext 50 4 [aTB, bTB, cTB] (myRand.pickBest i) (myRand.pickIdx i) [sTB, aTB, bTB] =
      some cTB := by
  unfold selectNext
  simp only
  simp only [show (([sTB, aTB, bTB] : List TacoBellLocation).getLastD dummyStop) = bTB from rfl,
    show ([aTB, bTB, cTB].filter fun c =>
      !([sTB, aTB, bTB].any fun x => x.placeId == c.placeId)) = [cTB] from rfl,
    List.map_cons, List.map_nil, dist_b_c,
    show (50 / 1.18 * 0.9 / ((4 : Nat) : ℝ) * 1000 : ℝ) = target4 from rfl,
    List.isEmpty_cons]
  rw [insertionSort_one (fun x y : TacoBellLocation × ℝ × ℝ => x.2.1 ≤ y.2.1)
    (cTB, uDist, |uDist - target4|)]
  simp only [List.map_cons, List.map_nil]
  rw [insertionSort_one (fun x y : TacoBellLocation × ℝ × ℝ => x.2.2 ≤ y.2.2)
    (cTB, uDist, 0.7 * (uDist / target4) + 0.3 * (|uDist - target4| / target4))]
  rw [if_neg (show ¬ (false = true) by simp)]
  rw [if_pos (Or.inl (show myRand.pickBest i
    ([sTB, aTB, bTB] : List TacoBellLocation).length = true from rfl))]
  rfl

/-- The construction loop stops as soon as the route reaches the requested
length, whatever fuel remains. -/
theorem buildLoop_stop (targetKm : ℝ) (nStops : Nat) (shuffled : List TacoBellLocation)
    (pickBest : Nat → Bool) (pickIdx : Nat → Nat) (fuel : Nat)
    (route : List TacoBellLocation) (h : ¬ route.length < nStops) :
    buildLoop targetKm nStops shuffled pickBest pickIdx fuel route = route := by
  cases fuel with
  | zero => rfl
  | succ n => rw [buildLoop, if_neg h]

/-- Full construction at stop count 3 with the scenario randomness. -/
theorem build3_eval (i fuel : Nat) (h : 2 ≤ fuel) :
    buildLoop 50 3 [aTB, bTB, cTB] (myRand.pickBest i) (myRand.pickIdx i) fuel [sTB] =
      [sTB, aTB, bTB] := by
  obtain ⟨f2, rfl⟩ : ∃ f2, fuel = f2 + 1 + 1 := ⟨fuel - 2, by omega⟩
  rw [buildLoop, if_pos (show ([sTB] : List TacoBellLocation).length < 3 by decide),
    select3_step1 i]
  show buildLoop 50 3 [aTB, bTB, cTB] (myRand.pickBest i) (myRand.pickIdx i) (f2 + 1)
    [sTB, aTB] = [sTB, aTB, bTB]
  rw [buildLoop, if_pos (show ([sTB, aTB] : List TacoBellLocation).length < 3 by decide),
    select3_step2 i]
  show buildLoop 50 3 [aTB, bTB, cTB] (myRand.pickBest i) (myRand.pickIdx i) f2
    [sTB, aTB, bTB] = [sTB, aTB, bTB]
  exact buildLoop_stop 50 3 [aTB, bTB, cTB] (myRand.pickBest i) (myRand.pickIdx i) f2
    [sTB, aTB, bTB] (by decide)

/-- Full construction at stop count 4 with the scenario randomness. -/
theorem build4_eval (i fuel : Nat) (h : 3 ≤ fuel) :
    buildLoop 50 4 [aTB, bTB, cTB] (myRand.pickBest i) (myRand.pickIdx i) fuel [sTB] =
      [sTB, aTB, bTB, cTB] := by
  obtain ⟨f2, rfl⟩ : ∃ f2, fuel = f2 + 1 + 1 + 1 := ⟨fuel - 3, by omega⟩
  rw [buildLoop, if_pos (show ([sTB] : List TacoBellLocation).length < 4 by decide),
    select4_step1 i]
  show buildLoop 50 4 [aTB, bTB, cTB] (myRand.pickBest i) (myRand.pickIdx i) (f2 + 1 + 1)
    [sTB, aTB] = [sTB, aTB, bTB, cTB]
  rw [buildLoop, if_pos (show ([sTB, aTB] : List TacoBellLocation).length < 4 by decide),
    select4_step2 i]
  show buildLoop 50 4 [aTB, bTB, cTB] (myRand.pickBest i) (myRand.pickIdx i) (f2 + 1)
    [sTB, aTB, bTB] = [sTB, aTB, bTB, cTB]
  rw [buildLoop, if_pos (show ([sTB, aTB, bTB] : List TacoBellLocation).length < 4 by decide),
    select4_step3 i]
  show buildLoop 50 4 [aTB, bTB, cTB] (myRand.pickBest i) (myRand.pickIdx i) f2
    [sTB, aTB, bTB, cTB] = [sTB, aTB, bTB, cTB]
  exact buildLoop_stop 50 4 [aTB, bTB, cTB] (myRand.pickBest i) (myRand.pickIdx i) f2
    [sTB, aTB, bTB, cTB] (by decide)

/-- The closed route of every stop-count-3 iteration of the scenario. -/
theorem closed3_eval (i : Nat) :
    closedRoute sTB [aTB, bTB, cTB] 50 3 myRand i = [sTB, aTB, bTB, sTB] := by
  unfold closedRoute
  simp only
  rw [show myRand.shuffle i [aTB, bTB, cTB] = [aTB, bTB, cTB] from rfl]
  rw [build3_eval i 3 (by norm_num)]
  rw [if_pos ⟨by decide, by decide⟩]
  rfl

/-- The closed route of every stop-count-4 iteration of the scenario. -/
theorem closed4_eval (i : Nat) :
    closedRoute sTB [aTB, bTB, cTB] 50 4 myRand i = [sTB, aTB, bTB, cTB, sTB] := by
  unfold closedRoute
  simp only
  rw [show myRand.shuffle i [aTB, bTB, cTB] = [aTB, bTB, cTB] from rfl]
  rw [build4_eval i 4 (by norm_num)]
  rw [if_pos ⟨by decide, by decide⟩]
  rfl

/-- Haversine total of the stop-count-3 scenario loop: four leg units. -/
theorem routeDistance3 : routeDistance [sTB, aTB, bTB, sTB] = 4 * uDist := by
  unfold routeDistance
  rw [if_neg (by norm_num)]
  have hds : segmentDistances [sTB, aTB, bTB, sTB] =
      [haversineDistance sTB.lat sTB.lng aTB.lat aTB.lng,
        haversineDistance aTB.lat aTB.lng bTB.lat bTB.lng,
        haversineDistance bTB.lat bTB.lng sTB.lat sTB.lng] := rfl
  rw [hds, dist_s_a, dist_a_b, dist_b_s]
  simp [List.sum_cons]
  ring

/-- Haversine total of the stop-count-4 scenario loop: six leg units. -/
theorem routeDistance4 : routeDistance [sTB, aTB, bTB, cTB, sTB] = 6 * uDist := by
  unfold routeDistance
  rw [if_neg (by norm_num)]
  have hds : segmentDistances [sTB, aTB, bTB, cTB, sTB] =
      [haversineDistance sTB.lat sTB.lng aTB.lat aTB.lng,
        haversineDistance aTB.lat aTB.lng bTB.lat bTB.lng,
        haversineDistance bTB.lat bTB.lng cTB.lat cTB.lng,
        haversineDistance cTB.lat cTB.lng sTB.lat sTB.lng] := rfl
  rw [hds, dist_s_a, dist_a_b, dist_b_c, dist_c_s]
  simp [List.sum_cons]
  ring

/-- The stop-count-3 loop passes the generator's 10%-over-target skip
filter. -/
theorem dist3_below_cap : ¬ routeDistance [sTB, aTB, bTB, sTB] / 1000 * 1.18 > 50 * 1.1 := by
  rw [routeDistance3]
  rw [not_lt]
  unfold uDist
  nlinarith [Real.pi_lt_d2]

/-- The stop-count-4 loop passes the generator's 10%-over-target skip
filter. -/
theorem dist4_below_cap : ¬ routeDistance [sTB, aTB, bTB, cTB, sTB] / 1000 * 1.18 > 50 * 1.1 := by
  rw [routeDistance4]
  rw [not_lt]
  unfold uDist
  nlinarith [Real.pi_lt_d2]

/-- The candidate produced by the stop-count-3 batch of the scenario. -/
noncomputable def r3 : RouteCandidate :=
  ⟨[sTB, aTB, bTB, sTB], (scoreRoute [sTB, aTB, bTB, sTB] 50 0.5 0.2 1.18).1,
    (scoreRoute [sTB, aTB, bTB, sTB] 50 0.5 0.2 1.18).2⟩

/-- The candidate produced by the stop-count-4 batch of the scenario. -/
noncomputable def r4 : RouteCandidate :=
  ⟨[sTB, aTB, bTB, cTB, sTB], (scoreRoute [sTB, aTB, bTB, cTB, sTB] 50 0.5 0.2 1.18).1,
    (scoreRoute [sTB, aTB, bTB, cTB, sTB] 50 0.5 0.2 1.18).2⟩

/-- A stop-count-3 iteration with an unseen signature accepts the
candidate. -/
theorem genIter3_fresh (i : Nat) (s : GenState)
    (hs : routeSignature [sTB, aTB, bTB, sTB] ∉ s.seenRoutes) :
    genIter sTB [aTB, bTB, cTB] 50 3 myRand s i =
      ⟨routeSignature [sTB, aTB, bTB, sTB] :: s.seenRoutes, s.routes ++ [r3]⟩ := by
  unfold genIter
  simp only
  rw [closed3_eval i, if_neg hs, if_neg dist3_below_cap]
  rfl

/-- A stop-count-3 iteration with a seen signature is a no-op. -/
theorem genIter3_skip (i : Nat) (s : GenState)
    (hs : routeSignature [sTB, aTB, bTB, sTB] ∈ s.seenRoutes) :
    genIter sTB [aTB, bTB, cTB] 50 3 myRand s i = s := by
  unfold genIter
  simp only
  rw [closed3_eval i, if_pos hs]

/-- A stop-count-4 iteration with an unseen signature accepts the
candidate. -/
theorem genIter4_fresh (i : Nat) (s : GenState)
    (hs : routeSignature [sTB, aTB, bTB, cTB, sTB] ∉ s.seenRoutes) :
    genIter sTB [aTB, bTB, cTB] 50 4 myRand s i =
      ⟨routeSignature [sTB, aTB, bTB, cTB, sTB] :: s.seenRoutes, s.routes ++ [r4]⟩ := by
  unfold genIter
  simp only
  rw [closed4_eval i, if_neg hs, if_neg dist4_below_cap]
  rfl

/-- A stop-count-4 iteration with a seen signature is a no-op. -/
theorem genIter4_skip (i : Nat) (s : GenState)
    (hs : routeSignature [sTB, aTB, bTB, cTB, sTB] ∈ s.seenRoutes) :
    genIter sTB [aTB, bTB, cTB] 50 4 myRand s i = s := by
  unfold genIter
  simp only
  rw [closed4_eval i, if_pos hs]

/-- A fold whose step fixes the state is the identity. -/
theorem foldl_fixed {α β : Type} (f : β → α → β) (s : β) :
    ∀ l : List α, (∀ a ∈ l, f s a = s) → l.foldl f s = s := by
  intro l
  induction l with
  | nil => intro _; rfl
  | cons x xs ih =>
    intro h
    rw [List.foldl_cons, h x (List.mem_cons_self x xs)]
    exact ih fun a ha => h a (List.mem_cons_of_mem x ha)

/-- The stop-count-3 batch of the scenario: after the first iteration the
signature is seen and all 199 remaining iterations are no-ops, so the
batch is the single candidate `r3`. -/
theorem gen3_eval :
    generateCandidateRoutes sTB [sTB, aTB, bTB, cTB] 50 3 200 myRand = .ok [r3] := by
  unfold generateCandidateRoutes
  rw [nearby_eval]
  rw [if_neg (by decide)]
  have hr : List.range 200 = 0 :: List.range' 1 199 := by
    rw [List.range_eq_range']
    rfl
  rw [hr, List.foldl_cons]
  rw [genIter3_fresh 0 ⟨[], []⟩ (List.not_mem_nil _)]
  rw [foldl_fixed _ _ _ (fun a _ => genIter3_skip a _ (List.mem_cons_self _ _))]
  rfl

/-- The stop-count-4 batch of the scenario is the single candidate
`r4`. -/
theorem gen4_eval :
    generateCandidateRoutes sTB [sTB, aTB, bTB, cTB] 50 4 200 myRand = .ok [r4] := by
  unfold generateCandidateRoutes
  rw [nearby_eval]
  rw [if_neg (by decide)]
  have hr : List.range 200 = 0 :: List.range' 1 199 := by
    rw [List.range_eq_range']
    rfl
  rw [hr, List.foldl_cons]
  rw [genIter4_fresh 0 ⟨[], []⟩ (List.not_mem_nil _)]
  rw [foldl_fixed _ _ _ (fun a _ => genIter4_skip a _ (List.mem_cons_self _ _))]
  rfl

/-- Loop-closure penalty of the stop-count-3 scenario loop: zero, since it
starts and ends at the start stop. -/
theorem loopness3 : loopnessPenalty [sTB, aTB, bTB, sTB] = ((0 : ℝ) : EReal) := by
  unfold loopnessPenalty
  rw [if_neg (by norm_num)]
  rw [show (([sTB, aTB, bTB, sTB] : List TacoBellLocation).headD dummyStop) = sTB from rfl,
    show (([sTB, aTB, bTB, sTB] : List TacoBellLocation).getLastD dummyStop) = sTB from rfl,
    haversine_self]

/-- Loop-closure penalty of the stop-count-4 scenario loop: zero. -/
theorem loopness4 : loopnessPenalty [sTB, aTB, bTB, cTB, sTB] = ((0 : ℝ) : EReal) := by
  unfold loopnessPenalty
  rw [if_neg (by norm_num)]
  rw [show (([sTB, aTB, bTB, cTB, sTB] : List TacoBellLocation).headD dummyStop) = sTB from rfl,
    show (([sTB, aTB, bTB, cTB, sTB] : List TacoBellLocation).getLastD dummyStop) = sTB
      from rfl,
    haversine_self]

/-- Spacing sub-score of the stop-count-3 scenario loop (legs one, two and
one unit): 250 times the square root of two. -/
theorem spacing3_eval :
    calculateSegmentSpacingVariance [sTB, aTB, bTB, sTB] =
      ((250 * Real.sqrt 2 : ℝ) : EReal) := by
  have hds : segmentDistances [sTB, aTB, bTB, sTB] =
      [haversineDistance sTB.lat sTB.lng aTB.lat aTB.lng,
        haversineDistance aTB.lat aTB.lng bTB.lat bTB.lng,
        haversineDistance bTB.lat bTB.lng sTB.lat sTB.lng] := rfl
  rw [dist_s_a, dist_a_b, dist_b_s] at hds
  have hsum : ([uDist, 2 * uDist, uDist] : List ℝ).sum = 4 * uDist := by
    simp [List.sum_cons]
    ring
  have hlen : (([uDist, 2 * uDist, uDist] : List ℝ).length : ℝ) = 3 := by norm_num
  have hmean : ([uDist, 2 * uDist, uDist] : List ℝ).sum /
      (([uDist, 2 * uDist, uDist] : List ℝ).length : ℝ) = 4 * uDist / 3 := by
    rw [hsum, hlen]
  have hvar : (([uDist, 2 * uDist, uDist] : List ℝ).map fun d =>
      (d - ([uDist, 2 * uDist, uDist] : List ℝ).sum /
        (([uDist, 2 * uDist, uDist] : List ℝ).length : ℝ)) ^ 2).sum /
      (([uDist, 2 * uDist, uDist] : List ℝ).length : ℝ) = 2 * (uDist / 3) ^ 2 := by
    rw [hsum, hlen]
    simp [List.map_cons, List.sum_cons]
    ring
  unfold calculateSegmentSpacingVariance
  rw [if_neg (by norm_num)]
  rw [hds]
  simp only
  rw [if_neg (by norm_num), if_pos (by rw [hmean]; linarith [uDist_pos])]
  rw [hvar, hmean, Real.sqrt_mul (by norm_num : (0:ℝ) ≤ 2),
    Real.sqrt_sq (by linarith [uDist_pos] : (0:ℝ) ≤ uDist / 3)]
  congr 1
  have hne := ne_of_gt uDist_pos
  field_simp
  ring

/-- Spacing sub-score of the stop-count-4 scenario loop (legs one, two,
one and two units): one thousand thirds. -/
theorem spacing4_eval :
    calculateSegmentSpacingVariance [sTB, aTB, bTB, cTB, sTB] =
      ((1000 / 3 : ℝ) : EReal) := by
  have hds : segmentDistances [sTB, aTB, bTB, cTB, sTB] =
      [haversineDistance sTB.lat sTB.lng aTB.lat aTB.lng,
        haversineDistance aTB.lat aTB.lng bTB.lat bTB.lng,
        haversineDistance bTB.lat bTB.lng cTB.lat cTB.lng,
        haversineDistance cTB.lat cTB.lng sTB.lat sTB.lng] := rfl
  rw [dist_s_a, dist_a_b, dist_b_c, dist_c_s] at hds
  have hsum : ([uDist, 2 * uDist, uDist, 2 * uDist] : List ℝ).sum = 6 * uDist := by
    simp [List.sum_cons]
    ring
  have hlen : (([uDist, 2 * uDist, uDist, 2 * uDist] : List ℝ).length : ℝ) = 4 := by norm_num
  have hmean : ([uDist, 2 * uDist, uDist, 2 * uDist] : List ℝ).sum /
      (([uDist, 2 * uDist, uDist, 2 * uDist] : List ℝ).length : ℝ) = 3 * uDist / 2 := by
    rw [hsum, hlen]
    ring
  have hvar : (([uDist, 2 * uDist, uDist, 2 * uDist] : List ℝ).map fun d =>
      (d - ([uDist, 2 * uDist, uDist, 2 * uDist] : List ℝ).sum /
        (([uDist, 2 * uDist, uDist, 2 * uDist] : List ℝ).length : ℝ)) ^ 2).sum /
      (([uDist, 2 * uDist, uDist, 2 * uDist] : List ℝ).length : ℝ) = (uDist / 2) ^ 2 := by
    rw [hsum, hlen]
    simp [List.map_cons, List.sum_cons]
    ring
  unfold calculateSegmentSpacingVariance
  rw [if_neg (by norm_num)]
  rw [hds]
  simp only
  rw [if_neg (by norm_num), if_pos (by rw [hmean]; linarith [uDist_pos])]
  rw [hvar, hmean, Real.sqrt_sq (by linarith [uDist_pos] : (0:ℝ) ≤ uDist / 2)]
  congr 1
  have hne := ne_of_gt uDist_pos
  field_simp
  ring

/-- Closed form of the stop-count-3 candidate's score. -/
theorem score3_eval : r3.score =
    (((50 - 4 * uDist / 1000 * 1.18) + 0.5 * (0 * (1 / 1000)) +
      0.2 * (250 * Real.sqrt 2) : ℝ) : EReal) := by
  show (scoreRoute [sTB, aTB, bTB, sTB] 50 0.5 0.2 1.18).2 = _
  unfold scoreRoute
  simp only
  rw [routeDistance3, loopness3, spacing3_eval]
  have hd : |4 * uDist / 1000 * 1.18 - 50| = 50 - 4 * uDist / 1000 * 1.18 := by
    rw [abs_of_nonpos]
    · ring
    · unfold uDist
      nlinarith [Real.pi_lt_d2]
  rw [hd]
  rw [← EReal.coe_mul (0 : ℝ) (1 / 1000), ← EReal.coe_mul (0.5 : ℝ),
    ← EReal.coe_mul (0.2 : ℝ), ← EReal.coe_add, ← EReal.coe_add]

/-- Closed form of the stop-count-4 candidate's score. -/
theorem score4_eval : r4.score =
    (((50 - 6 * uDist / 1000 * 1.18) + 0.5 * (0 * (1 / 1000)) +
      0.2 * (1000 / 3) : ℝ) : EReal) := by
  show (scoreRoute [sTB, aTB, bTB, cTB, sTB] 50 0.5 0.2 1.18).2 = _
  unfold scoreRoute
  simp only
  rw [routeDistance4, loopness4, spacing4_eval]
  have hd : |6 * uDist / 1000 * 1.18 - 50| = 50 - 6 * uDist / 1000 * 1.18 := by
    rw [abs_of_nonpos]
    · ring
    · unfold uDist
      nlinarith [Real.pi_lt_d2]
  rw [hd]
  rw [← EReal.coe_mul (0 : ℝ) (1 / 1000), ← EReal.coe_mul (0.5 : ℝ),
    ← EReal.coe_mul (0.2 : ℝ), ← EReal.coe_add, ← EReal.coe_add]

/-- The stop-count-4 candidate of the scenario scores strictly better
(lower) than the stop-count-3 one. -/
theorem r4_score_lt_r3_score : r4.score < r3.score := by
  rw [score3_eval, score4_eval, EReal.coe_lt_coe_iff]
  have h2 : (4 / 3 : ℝ) < Real.sqrt 2 := by
    nlinarith [Real.sq_sqrt (show (0:ℝ) ≤ 2 by norm_num), Real.sqrt_nonneg 2]
  unfold uDist
  nlinarith [Real.pi_gt_three]

/-- The two scenario candidates carry different estimated totals. -/
theorem r3_dist_ne_r4_dist : r3.totalDistance ≠ r4.totalDistance := by
  show (scoreRoute [sTB, aTB, bTB, sTB] 50 0.5 0.2 1.18).1 ≠
    (scoreRoute [sTB, aTB, bTB, cTB, sTB] 50 0.5 0.2 1.18).1
  show routeDistance [sTB, aTB, bTB, sTB] ≠ routeDistance [sTB, aTB, bTB, cTB, sTB]
  rw [routeDistance3, routeDistance4]
  have := uDist_pos
  intro h
  nlinarith

/-- Scenario nearby-search result at the start location. -/
def pS : Place := ⟨"s", "Taco Bell", none, 0, 0, ["restaurant"]⟩

/-- Scenario nearby-search result at longitude -1/16 degree. -/
noncomputable def pA : Place := ⟨"a", "Taco Bell", none, 0, -(1/16), ["restaurant"]⟩

/-- Scenario nearby-search result at longitude 1/16 degree. -/
noncomputable def pB : Place := ⟨"b", "Taco Bell", none, 0, 1/16, ["restaurant"]⟩

/-- Scenario nearby-search result at longitude 1/8 degree. -/
noncomputable def pC : Place := ⟨"c", "Taco Bell", none, 0, 1/8, ["restaurant"]⟩

/-- The scenario nearby-search result list. -/
noncomputable def placesList : List Place := [pS, pA, pB, pC]

/-- A details collaborator whose every call throws. -/
def dErr : String → Except Unit PlaceDetails := fun _ => .error ()

/-- An address extractor that never finds an address. -/
def eaNone : PlaceDetails → Option String := fun _ => none

/-- A distance oracle whose every call throws. -/
def failOracle : Oracle := fun _ _ _ => .error ()

/-- Scenario configuration with no oracle-call ceiling configured. -/
noncomputable def cfgA : RouteFinderConfig := ⟨48000, 55000, 3, 4, 15, none⟩

/-- Scenario configuration with an oracle-call ceiling of one. -/
noncomputable def cfgB : RouteFinderConfig := ⟨48000, 55000, 3, 4, 15, some 1⟩

/-- The candidate pool built from the scenario places: every place passes
the brand filter and, since every details call throws, each stop is built
from the nearby-search result with an empty address. -/
theorem findTacoBells_eval : findTacoBells placesList dErr eaNone = [sTB, aTB, bTB, cTB] := rfl

/-- The start stop is already in the scenario pool. -/
theorem pool_eval : poolWithStart sTB [sTB, aTB, bTB, cTB] = [sTB, aTB, bTB, cTB] := rfl

/-- The merged candidate list of the scenario run: the stop-count-3 batch
contributes `r3` and the stop-count-4 batch contributes `r4`, concatenated
in stop-count order. -/
theorem merged_eval (cfg : RouteFinderConfig) (h3 : cfg.minTacoBells = 3)
    (h4 : cfg.maxTacoBells = 4) :
    mergedCandidates sTB cfg [sTB, aTB, bTB, cTB] 50 (fun _ => myRand) = [r3, r4] := by
  unfold mergedCandidates
  rw [h3, h4]
  rw [show List.range' 3 (4 + 1 - 3) = [3, 4] from rfl]
  simp only [List.map_cons, List.map_nil]
  unfold batchRoutes
  rw [gen3_eval, gen4_eval]
  rfl

/-- The top-5 slice of the scenario run is the whole two-element merged
list. -/
theorem top_eval (cfg : RouteFinderConfig) (h3 : cfg.minTacoBells = 3)
    (h4 : cfg.maxTacoBells = 4) :
    topCandidatesOf sTB cfg [sTB, aTB, bTB, cTB] 50 (fun _ => myRand) = [r3, r4] := by
  unfold topCandidatesOf
  rw [merged_eval cfg h3 h4]
  rfl

/-- When no oracle call yields a verified distance within the configured
range — the call throws, or returns no route, or the first route's summed
legs fall outside `[minDistanceMeters, maxDistanceMeters]` — the best
verified candidate stays empty through the whole verification fold. -/
theorem verifyFold_best_none (cfg : RouteFinderConfig) (targetKm : ℝ) (oracle : Oracle)
    (hno : ∀ a b w dirs legs, oracle a b w = Except.ok dirs →
      dirs.routes.head? = some legs →
      ¬ (cfg.minDistanceMeters ≤ legs.sum ∧ legs.sum ≤ cfg.maxDistanceMeters))
    (top : List RouteCandidate)
    (s : VerifyState) (hb : s.best = none) :
    (top.foldl (verifyStep cfg targetKm oracle) s).best = none := by
  induction top generalizing s with
  | nil => exact hb
  | cons c cs ih =>
    rw [List.foldl_cons]
    apply ih
    by_cases hg : s.apiCallCount ≥ effectiveMaxApiCalls cfg
    · rw [verifyStep_guard cfg targetKm oracle s c hg]
      exact hb
    · cases ho : oracle (c.stops.headD dummyStop) (c.stops.getLastD dummyStop)
          ((c.stops.drop 1).dropLast) with
      | error e =>
        rw [verifyStep_error cfg targetKm oracle s c e hg ho]
        exact hb
      | ok dirs =>
        rw [verifyStep_ok cfg targetKm oracle s c dirs hg ho]
        cases hh : dirs.routes.head? with
        | none => exact hb
        | some legs =>
          show updateBest cfg targetKm s.best c legs.sum = none
          rw [hb]
          unfold updateBest
          rw [if_neg (hno _ _ _ _ _ ho hh)]

/-- C1 (amended): when enough stops are found, at least one candidate is
generated, and no oracle call yields a verified distance within
`[minDistanceMeters, maxDistanceMeters]` — every call throws, or returns
no route, or returns an out-of-range distance — `findOptimalRoute` falls
back to the FIRST candidate of the top-5 slice of the concatenated batches
— the head of the concatenation, not a globally best-scored candidate —
and returns success with its stops (closing duplicate removed) and its
estimated haversine distance. -/
theorem findOptimalRoute_fallback (start : TacoBellLocation) (cfg : RouteFinderConfig)
    (places : List Place) (details : String → Except Unit PlaceDetails)
    (extractAddress : PlaceDetails → Option String) (rands : Nat → RandSrc) (oracle : Oracle)
    (top : List RouteCandidate)
    (htopdef : top = topCandidatesOf start cfg
      (poolWithStart start (findTacoBells places details extractAddress)) 50 rands)
    (hlen : ¬ (findTacoBells places details extractAddress).length < cfg.minTacoBells)
    (hno : ∀ a b w dirs legs, oracle a b w = Except.ok dirs →
      dirs.routes.head? = some legs →
      ¬ (cfg.minDistanceMeters ≤ legs.sum ∧ legs.sum ≤ cfg.maxDistanceMeters))
    (htop : top ≠ []) :
    findOptimalRoute start cfg places details extractAddress rands oracle =
      ⟨true, some (top.headD default).stops.dropLast,
        some (top.headD default).totalDistance, none⟩ := by
  unfold findOptimalRoute
  simp only
  rw [if_neg hlen, ← htopdef]
  rw [if_neg (by
    intro hemp
    exact htop (List.isEmpty_iff.mp hemp))]
  have hb : (verifyFinalState cfg 50 oracle top).best = none := by
    unfold verifyFinalState
    exact verifyFold_best_none cfg 50 oracle hno top ⟨0, 0, none⟩ rfl
  rw [hb]

/-- C1 (counterexample to the claimed wording): in the scenario run with
an always-throwing oracle the fallback result carries candidate `r3` (the
head of the concatenated batches), even though `r4` is also in the merged
candidate list, scores strictly lower (better), and has a different
estimated total — so the fallback is not the single best-scored generated
candidate. -/
theorem fallback_not_best_counterexample :
    findOptimalRoute sTB cfgA placesList dErr eaNone (fun _ => myRand) failOracle =
      ⟨true, some [sTB, aTB, bTB], some r3.totalDistance, none⟩ ∧
    r4 ∈ mergedCandidates sTB cfgA [sTB, aTB, bTB, cTB] 50 (fun _ => myRand) ∧
    r4.score < r3.score ∧ r4.totalDistance ≠ r3.totalDistance := by
  refine ⟨?_, ?_, r4_score_lt_r3_score, Ne.symm r3_dist_ne_r4_dist⟩
  · unfold findOptimalRoute
    simp only
    rw [findTacoBells_eval]
    rw [if_neg (show ¬ (([sTB, aTB, bTB, cTB] : List TacoBellLocation).length <
      cfgA.minTacoBells) from by
        show ¬ (4 < 3)
        omega)]
    rw [pool_eval, top_eval cfgA rfl rfl]
    rw [if_neg (show ¬ (([r3, r4] : List RouteCandidate).isEmpty = true) from by
      show ¬ (false = true)
      simp)]
    have hb : (verifyFinalState cfgA 50 failOracle [r3, r4]).best = none := by
      unfold verifyFinalState
      exact verifyFold_best_none cfgA 50 failOracle
        (fun a b w dirs legs h hh => Except.noConfusion h) [r3, r4]
        ⟨0, 0, none⟩ rfl
    rw [hb]
    rfl
  · rw [merged_eval cfgA rfl rfl]
    simp

/-- C1 (witness for the amended theorem): the amended fallback theorem
applied to the scenario run, whose top slice is `[r3, r4]`. -/
theorem findOptimalRoute_fallback_witness :
    findOptimalRoute sTB cfgA placesList dErr eaNone (fun _ => myRand) failOracle =
      ⟨true, some (([r3, r4] : List RouteCandidate).headD default).stops.dropLast,
        some (([r3, r4] : List RouteCandidate).headD default).totalDistance, none⟩ :=
  findOptimalRoute_fallback sTB cfgA placesList dErr eaNone (fun _ => myRand) failOracle
    [r3, r4]
    (by rw [findTacoBells_eval, pool_eval]; exact (top_eval cfgA rfl rfl).symm)
    (by rw [findTacoBells_eval]; show ¬ (4 < 3); omega)
    (fun a b w dirs legs h hh => Except.noConfusion h)
    (by simp)

/-- C6 (counterexample to the claimed wording): the top-5 slice handed to
verification in the scenario run is `[r3, r4]`, yet `r4` scores strictly
lower (better) than `r3` — the merged list is not globally re-sorted by
score, so the slice is not the five best-scored routes ordered best
first. -/
theorem top_slice_not_sorted_counterexample :
    topCandidatesOf sTB cfgA [sTB, aTB, bTB, cTB] 50 (fun _ => myRand) = [r3, r4] ∧
    r4.score < r3.score :=
  ⟨top_eval cfgA rfl rfl, r4_score_lt_r3_score⟩

/-- C6 (witness for the amended theorem): the amended structure theorem
applied to the stop-count-3 batch of the scenario (whose output `[r3]` is
sorted) and to the scenario configuration. -/
theorem merged_candidates_structure_witness :
    List.Sorted (fun a b : RouteCandidate => a.score ≤ b.score) [r3] ∧
    topCandidatesOf sTB cfgA [sTB, aTB, bTB, cTB] 50 (fun _ => myRand) =
      (((List.range' cfgA.minTacoBells (cfgA.maxTacoBells + 1 - cfgA.minTacoBells)).map
        fun n => batchRoutes sTB [sTB, aTB, bTB, cTB] 50 ((fun _ => myRand) n) n).flatten).take
        5 :=
  ⟨merged_candidates_structure.1 sTB [sTB, aTB, bTB, cTB] 50 3 200 myRand [r3] gen3_eval,
    merged_candidates_structure.2 sTB cfgA [sTB, aTB, bTB, cTB] 50 (fun _ => myRand)⟩

/-- C3 (counterexample to the claimed wording): with a configured ceiling
of one, the scenario run with an always-throwing oracle invokes the oracle
twice — a throwing call does not increment the source's `apiCallCount`, so
the count of actual oracle invocations exceeds the configured ceiling. -/
theorem oracle_ceiling_exceeded_counterexample :
    oracleCallsUsed sTB cfgB placesList dErr eaNone (fun _ => myRand) failOracle = 2 ∧
    effectiveMaxApiCalls cfgB = 1 := by
  refine ⟨?_, rfl⟩
  unfold oracleCallsUsed
  simp only
  rw [findTacoBells_eval]
  rw [if_neg (show ¬ (([sTB, aTB, bTB, cTB] : List TacoBellLocation).length <
    cfgB.minTacoBells) from by
      show ¬ (4 < 3)
      omega)]
  rw [pool_eval, top_eval cfgB rfl rfl]
  unfold verifyFinalState
  rw [List.foldl_cons,
    verifyStep_error cfgB 50 failOracle ⟨0, 0, none⟩ r3 ()
      (by show ¬ (0 ≥ 1); omega) rfl,
    List.foldl_cons,
    verifyStep_error cfgB 50 failOracle ⟨0, 1, none⟩ r4 ()
      (by show ¬ (0 ≥ 1); omega) rfl,
    List.foldl_nil]

/-- C4 (witness): the closure/distinctness theorem applied to the
stop-count-3 batch of the scenario and its single candidate `r3`. -/
theorem generated_loop_closed_distinct_witness :
    r3.stops ≠ [] ∧
    r3.stops.headD dummyStop = sTB ∧
    r3.stops.getLastD dummyStop = sTB ∧
    (((r3.stops.drop 1).dropLast.map fun tb => tb.placeId).Nodup) ∧
    sTB.placeId ∉ ((r3.stops.drop 1).dropLast.map fun tb => tb.placeId) ∧
    ((r3.stops.drop 1).dropLast).length = 3 - 1 :=
  generated_loop_closed_distinct sTB [sTB, aTB, bTB, cTB] 50 3 200 myRand
    (fun _ l => List.Perm.refl l) (by decide) [r3] gen3_eval r3
    (List.mem_singleton_self r3)

/-- C10 (witness): the radius theorem applied to stop `aTB` of the
scenario candidate `r3`. -/
theorem generated_route_within_radius_witness :
    aTB = sTB ∨ (aTB ∈ [sTB, aTB, bTB, cTB] ∧
      haversineDistance sTB.lat sTB.lng aTB.lat aTB.lng ≤ 24140 ∧
      aTB.placeId ≠ sTB.placeId) :=
  generated_route_within_radius sTB [sTB, aTB, bTB, cTB] 50 3 200 myRand
    (fun _ l => List.Perm.refl l) [r3] gen3_eval r3 (List.mem_singleton_self r3)
    aTB (show aTB ∈ r3.stops from
      List.mem_cons_of_mem sTB (List.mem_cons_self aTB [bTB, sTB]))
